import Mathlib

/-!
Verification of the Stream_Panel `plex_service_v2.py` service.

The Python operations are shallowly embedded as total Lean functions over an
explicit environment describing the upstream Plex API's behaviour at each call
site (`Except Exn` values model calls that may raise).  Each operation returns
its structured result together with a trace of observable effects (alarm
settings and remote write calls), mirroring the source line by line.
-/

namespace StreamPanel

/-- Python exceptions raised by the service and by `plexapi`.
`notFound` models `plexapi.exceptions.NotFound`, which is a subclass of
`PlexApiException`; `timeout` models the module's own `TimeoutError`;
`generic` models every other `Exception` (KeyError, requests errors, ...). -/
inductive Exn where
  | timeout
  | notFound (msg : String)
  | plexApi (msg : String)
  | generic (msg : String)
deriving DecidableEq, Repr

/-- `isinstance(e, TimeoutError)` -/
def Exn.isTimeout : Exn → Bool
  | .timeout => true
  | _ => false

/-- `isinstance(e, NotFound)` -/
def Exn.isNotFound : Exn → Bool
  | .notFound _ => true
  | _ => false

/-- `isinstance(e, PlexApiException)` (`NotFound` is a subclass). -/
def Exn.isPlexApiException : Exn → Bool
  | .notFound _ => true
  | .plexApi _ => true
  | _ => false

/-- Every exception the service can raise derives from Python's `Exception`,
so the operations' final `except Exception` clauses catch all of them. -/
def Exn.isException : Exn → Bool
  | .timeout => true
  | .notFound _ => true
  | .plexApi _ => true
  | .generic _ => true

/-- `str(e)` -/
def Exn.str : Exn → String
  | .timeout => "Operation timed out"
  | .notFound m => m
  | .plexApi m => m
  | .generic m => m

/-- `"404" in str(e)` -/
def contains404 (s : String) : Bool :=
  decide ("404".toList <:+: s.toList)

/-- `s.lower()` : per-character lowercasing. -/
def pyLower (s : String) : String :=
  String.mk (s.data.map Char.toLower)

/-- The JSON server-config argument; every key may be absent
(`server_config['k']` raises `KeyError` on a missing key). -/
structure ServerConfig where
  name : Option String
  serverId : Option String
  token : Option String
  url : Option String
deriving DecidableEq, Repr

/-- `server_config['key']` : returns the value or raises `KeyError`. -/
def cfgItem (v : Option String) (key : String) : Except Exn String :=
  match v with
  | some s => Except.ok s
  | none => Except.error (Exn.generic ("KeyError: " ++ key))

/-- `server_config.get('name', 'unknown')` -/
def cfgGetName (cfg : ServerConfig) : String :=
  cfg.name.getD "unknown"

/-- A library section of the server's catalog (`section.key`, `section.title`,
with `key` already in string form as used by `section_map`). -/
structure PlexSection where
  key : String
  title : String
deriving DecidableEq, Repr

/-- One entry of `existing_user.servers`. -/
structure ServerAccess where
  machineIdentifier : String
deriving DecidableEq, Repr

/-- A `MyPlexUser` as returned by `account.user(...)`. -/
structure PlexUser where
  username : String
  id : String
  servers : List ServerAccess
deriving DecidableEq, Repr

/-- A friend record from `account.users()`; the three attributes compared by
the fallback scan of `remove_user` (any of them may be `None`). -/
structure Friend where
  username : Option String
  email : Option String
  title : Option String
deriving DecidableEq, Repr

/-- A pending invite from `account.pendingInvites(includeSent=True)`. -/
structure PendingInvite where
  email : Option String
  username : Option String
deriving DecidableEq, Repr

/-- A `SharedServer` element of the `shared_servers` XML listing consulted by
the delete-share fallback (attributes `email`, `username`, `id`). -/
structure SharedServerEntryRec where
  email : Option String
  username : Option String
  id : Option String
deriving DecidableEq, Repr

/-- Observable effects of an operation: alarm management, per-dropped-library
warnings, and the remote write primitives. -/
inductive Effect where
  | setAlarm (seconds : Nat)
  | clearAlarm
  | logDroppedLibrary (libId : String)
  | updateFriendCall (sectionKeys : List String)
  | inviteFriendCall (sectionKeys : List String)
  | sharedServersGetCall
  | deleteShareCall (shareId : String)
  | removeFriendCall (target : Friend)
  | cancelInviteCall
deriving DecidableEq, Repr

/-- Remote write primitives (`account.updateFriend`, `account.inviteFriend`,
`requests.delete` on a share record, `account.removeFriend`,
`account.cancelInvite`). -/
def isWriteEffect : Effect → Bool
  | .updateFriendCall _ => true
  | .inviteFriendCall _ => true
  | .deleteShareCall _ => true
  | .removeFriendCall _ => true
  | .cancelInviteCall => true
  | _ => false

/-- A trace issues no remote write call. -/
def noWriteEffects (t : List Effect) : Bool :=
  t.all (fun e => !isWriteEffect e)

/-- The structured result dict returned by `share_libraries_on_server` and
`remove_user` (absent keys are `none` / `false`). -/
structure OpResult where
  success : Bool
  message : String
  server : String
  librariesShared : Option Nat := none
  libraryDetails : Option (List (String × String)) := none
  warning : Option String := none
  inviteSent : Bool := false
deriving DecidableEq, Repr

/-- Classification of an outcome dict into the closed three-way result. -/
inductive OutcomeKind where
  | hardSuccess
  | warnSuccess
  | failure
deriving DecidableEq, Repr

/-- An outcome is a hard success, a success-with-warning, or a failure. -/
def outcomeClass (success : Bool) (warning : Option String) : OutcomeKind :=
  if success then
    (if warning.isSome then OutcomeKind.warnSuccess else OutcomeKind.hardSuccess)
  else OutcomeKind.failure

/-- Upstream behaviour of the call sites of `share_libraries_on_server`. -/
structure ShareEnv where
  connectAccount : Except Exn String
  resources : Except Exn (List String)
  serverConnect : Except Exn Unit
  sections : Except Exn (List PlexSection)
  userLookup : Except Exn PlexUser
  updateFriendEmpty : Except Exn Unit
  sharedServersGet : Except Exn (Nat × List SharedServerEntryRec)
  deleteShare : Except Exn Nat
  updateFriend : Except Exn Unit
  inviteFriend : Except Exn Unit
deriving Repr

/-- `section_map[k]`: the dict comprehension keeps the last section whose
string key equals `k`. -/
def sectionLookup (secs : List PlexSection) (k : String) : Option PlexSection :=
  secs.reverse.find? (fun s => s.key == k)

/-- Lines 211-218: split the requested IDs into the sections found in the
catalog (in request order) and the dropped unknown IDs (each logged). -/
def validateLibraryIds (secs : List PlexSection) : List String → List PlexSection × List String
  | [] => ([], [])
  | lid :: rest =>
    let vw := validateLibraryIds secs rest
    match sectionLookup secs lid with
    | some s => (s :: vw.1, vw.2)
    | none => (vw.1, lid :: vw.2)

/-- Lines 156-162: find the `SharedServer` entry whose `email` equals the
user's email or whose `username` equals the resolved user's username. -/
def findShareEntry (userEmail : String) (uname : String) :
    List SharedServerEntryRec → Option SharedServerEntryRec
  | [] => none
  | s :: rest =>
    if s.email == some userEmail || s.username == some uname then some s
    else findShareEntry userEmail uname rest

/-- Lines 143-176: the DELETE `shared_servers` fallback.  Every exception in
this block is caught and logged (line 175), so it only contributes effects. -/
def shareDeleteFallback (userEmail : String) (uname : String) (env : ShareEnv) :
    List Effect :=
  match env.sharedServersGet with
  | Except.error _ => [Effect.sharedServersGetCall]
  | Except.ok (status, entries) =>
    if status == 200 then
      match findShareEntry userEmail uname entries with
      | some entry =>
        match entry.id with
        | some shareId => [Effect.sharedServersGetCall, Effect.deleteShareCall shareId]
        | none => [Effect.sharedServersGetCall]
      | none => [Effect.sharedServersGetCall]
    else [Effect.sharedServersGetCall]

/-- Line 181-187 result dict of the revoke-all path. -/
def removedAllResult (userEmail name : String) : OpResult :=
  { success := true
    message := "Removed all library access for " ++ userEmail ++ " on " ++ name
    server := name
    librariesShared := some 0
    libraryDetails := some [] }

/-- Lines 96-209: empty `library_ids` means "remove all access from this
server".  Returns the raw outcome (`.error` = exception escaping past all
handlers of this block) and the effect trace of the block. -/
def shareRevoke (userEmail name sid : String) (env : ShareEnv) :
    Except Exn OpResult × List Effect :=
  match env.userLookup with
  | Except.error e =>
    if e.isNotFound then
      (Except.ok { success := true
                   message := "User " ++ userEmail ++ " not found - no action needed"
                   server := name
                   librariesShared := some 0 }, [Effect.clearAlarm])
    else if e.isPlexApiException && contains404 e.str then
      (Except.ok { success := true
                   message := "Library access removed (404 ignored)"
                   server := name
                   librariesShared := some 0
                   warning := some "404 error ignored - verify manually if needed" },
       [Effect.clearAlarm])
    else (Except.error e, [])
  | Except.ok u =>
    if u.servers.any (fun sa => sa.machineIdentifier == sid) then
      match env.updateFriendEmpty with
      | Except.ok _ =>
        (Except.ok (removedAllResult userEmail name),
         [Effect.updateFriendCall [], Effect.clearAlarm])
      | Except.error e =>
        if e.isPlexApiException && contains404 e.str then
          (Except.ok (removedAllResult userEmail name),
           Effect.updateFriendCall [] :: (shareDeleteFallback userEmail u.username env
             ++ [Effect.clearAlarm]))
        else if e.isNotFound then
          -- re-raised at line 178, then caught by `except NotFound` at line 188
          (Except.ok { success := true
                       message := "User " ++ userEmail ++ " not found - no action needed"
                       server := name
                       librariesShared := some 0 },
           [Effect.updateFriendCall [], Effect.clearAlarm])
        else (Except.error e, [Effect.updateFriendCall []])
    else
      (Except.ok { success := true
                   message := "User has no access to " ++ name ++ " - nothing to remove"
                   server := name
                   librariesShared := some 0 }, [Effect.clearAlarm])

/-- The `library_details` list built from the validated sections. -/
def libraryDetailsOf (valids : List PlexSection) : List (String × String) :=
  valids.map (fun s => (s.key, s.title))

/-- Lines 211-296: the non-empty path — validate, then update or invite. -/
def shareGrant (userEmail name : String) (secs : List PlexSection)
    (libs : List String) (env : ShareEnv) : Except Exn OpResult × List Effect :=
  let vw := validateLibraryIds secs libs
  let warnTrace := vw.2.map Effect.logDroppedLibrary
  if vw.1.isEmpty then
    (Except.ok { success := false
                 message := "No valid library IDs provided"
                 server := name }, warnTrace ++ [Effect.clearAlarm])
  else
    let keys := vw.1.map PlexSection.key
    match env.userLookup with
    | Except.error e =>
      if e.isNotFound then
        match env.inviteFriend with
        | Except.ok _ =>
          (Except.ok { success := true
                       message := "Invited " ++ userEmail ++ " to server"
                       server := name
                       librariesShared := some vw.1.length
                       libraryDetails := some (libraryDetailsOf vw.1)
                       inviteSent := true },
           warnTrace ++ [Effect.inviteFriendCall keys, Effect.clearAlarm])
        | Except.error e2 =>
          (Except.error e2, warnTrace ++ [Effect.inviteFriendCall keys])
      else (Except.error e, warnTrace)
    | Except.ok _u =>
      match env.updateFriend with
      | Except.ok _ =>
        (Except.ok { success := true
                     message := "Updated library access for " ++ userEmail
                     server := name
                     librariesShared := some vw.1.length
                     libraryDetails := some (libraryDetailsOf vw.1) },
         warnTrace ++ [Effect.updateFriendCall keys, Effect.clearAlarm])
      | Except.error e =>
        if e.isPlexApiException && contains404 e.str then
          (Except.ok { success := true
                       message := "Library access updated (404 ignored)"
                       server := name
                       librariesShared := some vw.1.length
                       libraryDetails := some (libraryDetailsOf vw.1)
                       warning := some "404 error ignored - verify manually if needed" },
           warnTrace ++ [Effect.updateFriendCall keys, Effect.clearAlarm])
        else (Except.error e, warnTrace ++ [Effect.updateFriendCall keys])

/-- The part of `share_libraries_on_server` after `set_timeout(60)`:
connect, find the server resource, list sections, then revoke or grant. -/
def shareAttemptTimed (userEmail sid : String) (name : String)
    (cfg : ServerConfig) (libs : List String) (env : ShareEnv) :
    Except Exn OpResult × List Effect :=
  match cfgItem cfg.token "token" with
  | Except.error e => (Except.error e, [])
  | Except.ok _tok =>
  match env.connectAccount with
  | Except.error e => (Except.error e, [])
  | Except.ok _acct =>
  match env.resources with
  | Except.error e => (Except.error e, [])
  | Except.ok rs =>
  if rs.contains sid then
    match env.serverConnect with
    | Except.error e => (Except.error e, [])
    | Except.ok _ =>
    match env.sections with
    | Except.error e => (Except.error e, [])
    | Except.ok secs =>
    if libs.isEmpty then shareRevoke userEmail name sid env
    else shareGrant userEmail name secs libs env
  else
    (Except.ok { success := false
                 message := "Server " ++ sid ++ " not found"
                 server := name }, [Effect.clearAlarm])

/-- The whole `try` body of `share_libraries_on_server` (lines 60-296). -/
def shareAttempt (userEmail : String) (cfg : ServerConfig) (libs : List String)
    (env : ShareEnv) : Except Exn OpResult × List Effect :=
  match cfgItem cfg.name "name" with
  | Except.error e => (Except.error e, [])
  | Except.ok name =>
  match cfgItem cfg.serverId "server_id" with
  | Except.error e => (Except.error e, [])
  | Except.ok sid =>
    let p := shareAttemptTimed userEmail sid name cfg libs env
    (p.1, Effect.setAlarm 60 :: p.2)

/-- The operation boundary: `except TimeoutError:` then `except Exception:`.
An exception that is not a Python `Exception` would escape, but every `Exn`
is one (`Exn.isException`). -/
def catchBoundary {A : Type} (p : Except Exn A × List Effect)
    (onTimeout : A) (onError : Exn → A) : Except Exn A × List Effect :=
  match p with
  | (Except.ok r, t) => (Except.ok r, t)
  | (Except.error e, t) =>
    if e.isTimeout then (Except.ok onTimeout, t ++ [Effect.clearAlarm])
    else if e.isException then (Except.ok (onError e), t ++ [Effect.clearAlarm])
    else (Except.error e, t)

/-- `share_libraries_on_server` (lines 48-313): the body wrapped in the
`except TimeoutError` / `except Exception` handlers. -/
def shareLibrariesOnServer (userEmail : String) (cfg : ServerConfig)
    (libs : List String) (env : ShareEnv) : Except Exn OpResult × List Effect :=
  catchBoundary (shareAttempt userEmail cfg libs env)
    { success := false, message := "Operation timed out", server := cfgGetName cfg }
    (fun e => { success := false, message := e.str, server := cfgGetName cfg })

/-- Upstream behaviour of the call sites of `remove_user`. -/
structure RemoveEnv where
  connectAccount : Except Exn String
  userLookup : Except Exn Friend
  friends : Except Exn (List Friend)
  removeFriend : Except Exn Unit
  pendingInvites : Except Exn (List PendingInvite)
  cancelInvite : Except Exn Unit
deriving Repr

/-- Line 352: `friend.username and friend.username.lower() == identifier_lower`. -/
def matchByUsername (idLower : String) (f : Friend) : Bool :=
  match f.username with
  | some u => !u.isEmpty && pyLower u == idLower
  | none => false

/-- Line 357: `friend.email and friend.email.lower() == identifier_lower`. -/
def matchByEmail (idLower : String) (f : Friend) : Bool :=
  match f.email with
  | some e => !e.isEmpty && pyLower e == idLower
  | none => false

/-- Line 362: `friend.title and friend.title.lower() == identifier_lower`. -/
def matchByTitle (idLower : String) (f : Friend) : Bool :=
  match f.title with
  | some t => !t.isEmpty && pyLower t == idLower
  | none => false

/-- Lines 350-365: one friend matches the identifier when its username, email
or title (each only when truthy) equals it case-insensitively. -/
def friendMatches (idLower : String) (f : Friend) : Bool :=
  matchByUsername idLower f || matchByEmail idLower f || matchByTitle idLower f

/-- The fallback linear scan of the friends list: first matching friend wins. -/
def scanFriends (identifier : String) (fs : List Friend) : Option Friend :=
  fs.find? (friendMatches (pyLower identifier))

/-- Lines 386-396: does some pending invite match the identifier by email or
username (`None` compares as the empty string)? -/
def findPendingInvite (idLower : String) : List PendingInvite → Bool
  | [] => false
  | iv :: rest =>
    if pyLower (iv.email.getD "") == idLower
        || pyLower (iv.username.getD "") == idLower then true
    else findPendingInvite idLower rest

/-- Lines 367-377: a resolved user is removed via `account.removeFriend`. -/
def removeFound (identifier name : String) (f : Friend) (env : RemoveEnv) :
    Except Exn OpResult × List Effect :=
  match env.removeFriend with
  | Except.error e => (Except.error e, [Effect.removeFriendCall f])
  | Except.ok _ =>
    (Except.ok { success := true
                 message := "Successfully removed " ++ identifier
                 server := name }, [Effect.removeFriendCall f, Effect.clearAlarm])

/-- Lines 378-410: no user resolved — cancel a matching pending invite, or
report the no-op success. -/
def removeNoUserPath (identifier name : String) (env : RemoveEnv) :
    Except Exn OpResult × List Effect :=
  match env.pendingInvites with
  | Except.error e => (Except.error e, [])
  | Except.ok invs =>
    if findPendingInvite (pyLower identifier) invs then
      match env.cancelInvite with
      | Except.error e => (Except.error e, [Effect.cancelInviteCall])
      | Except.ok _ =>
        (Except.ok { success := true
                     message := "Canceled pending invite for " ++ identifier
                     server := name }, [Effect.cancelInviteCall, Effect.clearAlarm])
    else
      (Except.ok { success := true
                   message := "User " ++ identifier
                     ++ " not found on server (already removed or never invited)"
                   server := name }, [Effect.clearAlarm])

/-- The part of `remove_user` after `set_timeout(60)`. -/
def removeAttemptTimed (identifier name : String) (cfg : ServerConfig)
    (env : RemoveEnv) : Except Exn OpResult × List Effect :=
  match cfgItem cfg.token "token" with
  | Except.error e => (Except.error e, [])
  | Except.ok _tok =>
  match env.connectAccount with
  | Except.error e => (Except.error e, [])
  | Except.ok _acct =>
  match env.userLookup with
  | Except.ok u => removeFound identifier name u env
  | Except.error e =>
    if e.isNotFound then
      match env.friends with
      | Except.error e2 => (Except.error e2, [])
      | Except.ok fs =>
        match scanFriends identifier fs with
        | some f => removeFound identifier name f env
        | none => removeNoUserPath identifier name env
    else (Except.error e, [])

/-- The whole `try` body of `remove_user` (lines 326-410). -/
def removeAttempt (identifier : String) (cfg : ServerConfig) (env : RemoveEnv) :
    Except Exn OpResult × List Effect :=
  match cfgItem cfg.name "name" with
  | Except.error e => (Except.error e, [])
  | Except.ok name =>
  match cfgItem cfg.serverId "server_id" with
  | Except.error e => (Except.error e, [])
  | Except.ok _sid =>
    let p := removeAttemptTimed identifier name cfg env
    (p.1, Effect.setAlarm 60 :: p.2)

/-- `remove_user` (lines 315-427) with its outer exception handlers. -/
def removeUser (identifier : String) (cfg : ServerConfig) (env : RemoveEnv) :
    Except Exn OpResult × List Effect :=
  catchBoundary (removeAttempt identifier cfg env)
    { success := false, message := "Operation timed out", server := cfgGetName cfg }
    (fun e => { success := false, message := e.str, server := cfgGetName cfg })

/-- The `user_info` dict built by `check_user_info`. -/
structure UserInfo where
  email : String
  userExists : Bool
  pendingInvite : Bool
  username : Option String
  userId : Option String
deriving DecidableEq, Repr

/-- The result dict of `check_user_info`. -/
structure CheckResult where
  success : Bool
  server : Option String := none
  serverId : Option String := none
  userInfo : Option UserInfo := none
  message : Option String := none
deriving DecidableEq, Repr

/-- Upstream behaviour of the call sites of `check_user_info`. -/
structure CheckEnv where
  connectAccount : Except Exn String
  userLookup : Except Exn PlexUser
  pendingInvites : Except Exn (List PendingInvite)
deriving Repr

/-- Lines 484-488: `invite.email.lower()` without a `None` guard — a `None`
email raises `AttributeError` before any comparison. -/
def findInviteByEmailCk (emailLower : String) : List PendingInvite → Except Exn Bool
  | [] => Except.ok false
  | iv :: rest =>
    match iv.email with
    | none =>
      Except.error (Exn.generic "AttributeError: NoneType object has no attribute lower")
    | some e =>
      if pyLower e == emailLower then Except.ok true
      else findInviteByEmailCk emailLower rest

/-- Lines 493-499: `clear_timeout()` then the success dict, whose
construction indexes `server_config['name']` and `['server_id']` directly. -/
def checkFinish (cfg : ServerConfig) (ui : UserInfo) :
    Except Exn CheckResult × List Effect :=
  match cfgItem cfg.name "name" with
  | Except.error e => (Except.error e, [Effect.clearAlarm])
  | Except.ok name =>
  match cfgItem cfg.serverId "server_id" with
  | Except.error e => (Except.error e, [Effect.clearAlarm])
  | Except.ok sid =>
    (Except.ok { success := true
                 server := some name
                 serverId := some sid
                 userInfo := some ui }, [Effect.clearAlarm])

/-- The whole `try` body of `check_user_info` (lines 440-499);
`set_timeout(15)` precedes every config access. -/
def checkAttemptBody (userEmail : String) (cfg : ServerConfig) (env : CheckEnv) :
    Except Exn CheckResult × List Effect :=
  match cfgItem cfg.token "token" with
    | Except.error e => (Except.error e, [])
    | Except.ok _tok =>
    match env.connectAccount with
    | Except.error e => (Except.error e, [])
    | Except.ok _acct =>
    match env.userLookup with
    | Except.ok u =>
      checkFinish cfg { email := userEmail
                        userExists := true
                        pendingInvite := false
                        username := some u.username
                        userId := some u.id }
    | Except.error e =>
      if e.isNotFound then
        match env.pendingInvites with
        | Except.error e2 => (Except.error e2, [])
        | Except.ok invs =>
          match findInviteByEmailCk (pyLower userEmail) invs with
          | Except.error e3 => (Except.error e3, [])
          | Except.ok b =>
            checkFinish cfg { email := userEmail
                              userExists := false
                              pendingInvite := b
                              username := none
                              userId := none }
      else (Except.error e, [])

/-- The whole `try` body of `check_user_info`: `set_timeout(15)` precedes
every other step. -/
def checkAttempt (userEmail : String) (cfg : ServerConfig) (env : CheckEnv) :
    Except Exn CheckResult × List Effect :=
  ((checkAttemptBody userEmail cfg env).1,
   Effect.setAlarm 15 :: (checkAttemptBody userEmail cfg env).2)

/-- `check_user_info` (lines 429-516) with its outer exception handlers. -/
def checkUserInfo (userEmail : String) (cfg : ServerConfig) (env : CheckEnv) :
    Except Exn CheckResult × List Effect :=
  catchBoundary (checkAttempt userEmail cfg env)
    { success := false, message := some "Verification timed out"
      server := some (cfgGetName cfg) }
    (fun e => { success := false, message := some e.str
                server := some (cfgGetName cfg) })

/-- Python truthiness for an optional string attribute (`None` and the empty
string are falsy). -/
def truthyS : Option String → Bool
  | some s => !s.isEmpty
  | none => false

/-- Python `a or b` over optional string attributes. -/
def pyOr (a b : Option String) : Option String :=
  if truthyS a then a else b

/-- Accumulate a decimal digit string into a number; `none` on any
non-digit. -/
def parseDigitsAux : List Char → Nat → Option Nat
  | [], acc => some acc
  | c :: cs, acc =>
    if c.isDigit then parseDigitsAux cs (acc * 10 + (c.toNat - 48)) else none

/-- `int(s)` on a plain decimal literal (optionally negative); any other
string raises `ValueError`. -/
def pyInt (s : String) : Except Exn Int :=
  let bad : Except Exn Int :=
    Except.error (Exn.generic ("invalid literal for int() with base 10: " ++ s))
  match s.data with
  | [] => bad
  | '-' :: rest =>
    match rest, parseDigitsAux rest 0 with
    | _ :: _, some n => Except.ok (-(n : Int))
    | _, _ => bad
  | cs =>
    match parseDigitsAux cs 0 with
    | some n => Except.ok (n : Int)
    | none => bad

/-- `int(user_id) if user_id else 0` (line 856). -/
def pyIntOr0 (v : Option String) : Except Exn Int :=
  if truthyS v then pyInt (v.getD "") else Except.ok 0

/-- A `Section` element nested in a shared-server record
(attributes `key`, `id`, `shared`). -/
structure SectionXml where
  key : Option String
  id : Option String
  shared : Option String
deriving DecidableEq, Repr

/-- A `SharedServer` element of the per-server `shared_servers` listing. -/
structure SharedServerXml where
  userID : Option String
  username : Option String
  email : Option String
  acceptedAt : Option String
  invitedAt : Option String
  sections : List SectionXml
deriving DecidableEq, Repr

/-- A `User` element of the Plex Home listing. -/
structure HomeUserXml where
  id : Option String
  title : Option String
  username : Option String
  email : Option String
  admin : Option String
  restricted : Option String
deriving DecidableEq, Repr

/-- Lines 746-751 / 828-832: the section keys flagged `shared="1"`, taking
`key` with `id` as fallback (Python `or`), kept only when truthy. -/
def extractSharedIds (sections : List SectionXml) : List String :=
  sections.filterMap (fun s =>
    let sid := pyOr s.key s.id
    if truthyS sid && (s.shared == some "1") then sid else none)

/-- One entry of the merged users list. -/
structure UserEntry where
  email : String
  username : Option String
  plexUserId : Int
  libraryIds : List String
  isPendingInvite : Bool
  isActiveFriend : Bool
  isHomeUser : Bool
deriving DecidableEq, Repr

/-- Line 743: a friend record is processed only when email, username and
userID are all truthy. -/
def validFriendRec (r : SharedServerXml) : Bool :=
  truthyS r.email && truthyS r.username && truthyS r.userID

/-- Lines 757-765: the users-list entry built from a friend record. -/
def mkFriendEntry (r : SharedServerXml) (pid : Int) : UserEntry :=
  { email := pyLower (r.email.getD "")
    username := r.username
    plexUserId := pid
    libraryIds := extractSharedIds r.sections
    isPendingInvite := !truthyS r.acceptedAt && truthyS r.invitedAt
    isActiveFriend := truthyS r.acceptedAt
    isHomeUser := false }

/-- Lines 736-765: process the friend records in order; `int(user_id)` may
raise, aborting the whole operation. -/
def friendLoop : List SharedServerXml → Except Exn (List UserEntry)
  | [] => Except.ok []
  | r :: rest =>
    if validFriendRec r then
      match pyInt (r.userID.getD "") with
      | Except.error e => Except.error e
      | Except.ok n =>
        match friendLoop rest with
        | Except.error e => Except.error e
        | Except.ok es => Except.ok (mkFriendEntry r n :: es)
    else friendLoop rest

/-- Lines 819-849: resolve one home user's library access on this server from
the per-user `shared_servers` lookup.  A failed lookup (non-200 status or any
exception) yields no access; a successful empty lookup grants the full
catalog only to an unrestricted user. -/
def resolveHomeUserAccess (isRestricted : Bool)
    (lookup : Except Exn (Nat × List SectionXml))
    (allLibraryIds : List String) : List String :=
  match lookup with
  | Except.error _ => []
  | Except.ok (status, sections) =>
    if status == 200 then
      let libs := extractSharedIds sections
      if !isRestricted && libs.isEmpty then allLibraryIds else libs
    else []

/-- Lines 853-861: the users-list entry built from a home-user record. -/
def mkHomeEntry (u : HomeUserXml) (pid : Int) (libs : List String) : UserEntry :=
  { email := pyLower (u.email.getD "")
    username := pyOr u.title u.username
    plexUserId := pid
    libraryIds := libs
    isPendingInvite := false
    isActiveFriend := false
    isHomeUser := true }

/-- Lines 800-862: process the home users in order, skipping the admin,
records without email, and emails already seen; only users with some
resolved access are added.  A `ValueError` from `int(user_id)` is caught by
the surrounding handler (line 868), ending the home-user part while keeping
the entries already appended. -/
def homeLoop (allLibs : List String) (seen : List String) :
    List (HomeUserXml × Except Exn (Nat × List SectionXml)) → List UserEntry
  | [] => []
  | (u, lk) :: rest =>
    if u.admin == some "1" || !truthyS u.email then homeLoop allLibs seen rest
    else
      let el := pyLower (u.email.getD "")
      if seen.contains el then homeLoop allLibs seen rest
      else
        let libs := resolveHomeUserAccess (u.restricted == some "1") lk allLibs
        if libs.isEmpty then homeLoop allLibs seen rest
        else
          match pyIntOr0 u.id with
          | Except.error _ => []
          | Except.ok pid => mkHomeEntry u pid libs :: homeLoop allLibs (el :: seen) rest

/-- The result dict of `get_all_users_with_library_access`. -/
structure GetUsersResult where
  success : Bool
  server : String
  serverId : Option String := none
  users : List UserEntry := []
  activeCount : Nat := 0
  pendingCount : Nat := 0
  homeUsersCount : Nat := 0
  message : Option String := none
deriving DecidableEq, Repr

/-- Upstream behaviour of the call sites of
`get_all_users_with_library_access`; each home-user record is paired with the
outcome of its per-server sharing lookup. -/
structure GetUsersEnv where
  sharedServersResp : Except Exn (Nat × List SharedServerXml)
  libsResp : Except Exn (Nat × List (Option String))
  homeResp : Except Exn (Nat × List (HomeUserXml × Except Exn (Nat × List SectionXml)))
deriving Repr

/-- Lines 778-790: the server's catalog keys; `server_config['url']` raising
`KeyError`, a failed request or a non-200 status all leave it empty. -/
def computeAllLibs (cfgUrl : Option String)
    (resp : Except Exn (Nat × List (Option String))) : List String :=
  match cfgUrl with
  | none => []
  | some _ =>
    match resp with
    | Except.error _ => []
    | Except.ok (st, keys) =>
      if st == 200 then keys.filterMap (fun k => if truthyS k then k else none)
      else []

/-- Lines 771-869: the home-user part of the merge.  The whole part sits in
its own `try` whose handler only logs, so a failed home listing (error or
non-200) simply contributes no entries. -/
def homePart (allLibs : List String) (seen : List String)
    (resp : Except Exn (Nat × List (HomeUserXml × Except Exn (Nat × List SectionXml)))) :
    List UserEntry :=
  match resp with
  | Except.error _ => []
  | Except.ok (hst, homes) =>
    if hst == 200 then homeLoop allLibs seen homes else []

/-- Lines 732-769: the friend part of the merge — records are processed only
when the listing returned HTTP 200; otherwise the error is logged and the
users list stays empty. -/
def friendPart (st : Nat) (recs : List SharedServerXml) :
    Except Exn (List UserEntry) :=
  if st = 200 then friendLoop recs else Except.ok []

/-- The whole `try` body of `get_all_users_with_library_access`
(lines 716-887). -/
def getUsersAttempt (cfg : ServerConfig) (env : GetUsersEnv) :
    Except Exn GetUsersResult × List Effect :=
  match cfgItem cfg.name "name" with
  | Except.error e => (Except.error e, [])
  | Except.ok name =>
  match cfgItem cfg.serverId "server_id" with
  | Except.error e => (Except.error e, [Effect.setAlarm 60])
  | Except.ok sid =>
  match cfgItem cfg.token "token" with
  | Except.error e => (Except.error e, [Effect.setAlarm 60])
  | Except.ok _tok =>
  match env.sharedServersResp with
  | Except.error e => (Except.error e, [Effect.setAlarm 60, Effect.sharedServersGetCall])
  | Except.ok (st, recs) =>
    match friendPart st recs with
    | Except.error e => (Except.error e, [Effect.setAlarm 60, Effect.sharedServersGetCall])
    | Except.ok fes =>
      let users := fes ++ homePart (computeAllLibs cfg.url env.libsResp)
        (fes.map UserEntry.email) env.homeResp
      (Except.ok { success := true
                   server := name
                   serverId := some sid
                   users := users
                   activeCount := (users.filter (fun u => !u.isPendingInvite)).length
                   pendingCount := (users.filter (fun u => u.isPendingInvite)).length
                   homeUsersCount := (users.filter (fun u => u.isHomeUser)).length },
       [Effect.setAlarm 60, Effect.sharedServersGetCall, Effect.clearAlarm])

/-- `get_all_users_with_library_access` (lines 705-906) with its outer
exception handlers. -/
def getAllUsersWithLibraryAccess (cfg : ServerConfig) (env : GetUsersEnv) :
    Except Exn GetUsersResult × List Effect :=
  catchBoundary (getUsersAttempt cfg env)
    { success := false, server := cfgGetName cfg, message := some "Operation timed out" }
    (fun e => { success := false, server := cfgGetName cfg, message := some e.str })

/-- One entry of the users list of `get_all_users_with_activity`. -/
structure ActUser where
  email : String
  username : String
  userId : String
  lastSeenAt : Option String
  daysSince : Option Int
  isPendingInvite : Bool
  isActiveFriend : Bool
deriving DecidableEq, Repr

/-- The result dict of `get_all_users_with_activity`. -/
structure ActResult where
  success : Bool
  server : String
  serverId : Option String := none
  users : List ActUser := []
  pendingInvites : List ActUser := []
  totalUsers : Nat := 0
  totalPending : Nat := 0
  message : Option String := none
deriving DecidableEq, Repr

/-- Upstream behaviour of `get_all_users_with_activity`; `history` gives, per
account id, the outcome of the watch-history lookup (the latest view's iso
timestamp and its day difference from the wall clock, an input here). -/
structure ActivityEnv where
  sharedServersResp : Except Exn (Nat × List SharedServerXml)
  plexConnect : Except Exn Unit
  history : Int → Except Exn (Option (String × Int))

/-- Lines 558-576: split the valid shared-server records into accepted users
and pending invites, converting `userID` with `int(...)`. -/
def activityParse :
    List SharedServerXml → Except Exn (List (String × String × Int) × List (String × String × Int))
  | [] => Except.ok ([], [])
  | r :: rest =>
    if validFriendRec r then
      match pyInt (r.userID.getD "") with
      | Except.error e => Except.error e
      | Except.ok n =>
        match activityParse rest with
        | Except.error e => Except.error e
        | Except.ok ap =>
          let ud := (pyLower (r.email.getD ""), (r.username.getD ""), n)
          if truthyS r.acceptedAt then Except.ok (ud :: ap.1, ap.2)
          else if truthyS r.invitedAt then Except.ok (ap.1, ud :: ap.2)
          else Except.ok (ap.1, ap.2)
    else activityParse rest

/-- A user entry without watch-history data. -/
def mkActUserNoHist (ud : String × String × Int) : ActUser :=
  { email := ud.1
    username := ud.2.1
    userId := toString ud.2.2
    lastSeenAt := none
    daysSince := none
    isPendingInvite := false
    isActiveFriend := true }

/-- Lines 610-653: attach the last-seen data; a failed history lookup is
caught and logged, leaving the fields `None`. -/
def actHistoryUser (env : ActivityEnv) (ud : String × String × Int) : ActUser :=
  match env.history ud.2.2 with
  | Except.error _ => mkActUserNoHist ud
  | Except.ok none => mkActUserNoHist ud
  | Except.ok (some hist) =>
    { mkActUserNoHist ud with lastSeenAt := some hist.1, daysSince := some hist.2 }

/-- The whole `try` body of `get_all_users_with_activity` (lines 529-684). -/
def activityAttempt (cfg : ServerConfig) (env : ActivityEnv) :
    Except Exn ActResult × List Effect :=
  match cfgItem cfg.name "name" with
  | Except.error e => (Except.error e, [])
  | Except.ok name =>
  match cfgItem cfg.serverId "server_id" with
  | Except.error e => (Except.error e, [Effect.setAlarm 90])
  | Except.ok sid =>
  match cfgItem cfg.token "token" with
  | Except.error e => (Except.error e, [Effect.setAlarm 90])
  | Except.ok _tok =>
  match env.sharedServersResp with
  | Except.error e => (Except.error e, [Effect.setAlarm 90, Effect.sharedServersGetCall])
  | Except.ok (st, recs) =>
    if st == 200 then
      match activityParse recs with
      | Except.error e => (Except.error e, [Effect.setAlarm 90, Effect.sharedServersGetCall])
      | Except.ok ap =>
        match (match cfgItem cfg.url "url" with
               | Except.error e => Except.error e
               | Except.ok _ => env.plexConnect) with
        | Except.error _ =>
          -- lines 585-607: connection failure — users without watch history
          (Except.ok { success := true
                       server := name
                       serverId := some sid
                       users := ap.1.map mkActUserNoHist
                       pendingInvites := []
                       totalUsers := ap.1.length
                       totalPending := 0 },
           [Effect.setAlarm 90, Effect.sharedServersGetCall])
        | Except.ok _ =>
          (Except.ok { success := true
                       server := name
                       serverId := some sid
                       users := ap.1.map (actHistoryUser env)
                       pendingInvites := ap.2.map (fun ud =>
                         { mkActUserNoHist ud with
                             isPendingInvite := true, isActiveFriend := false })
                       totalUsers := ap.1.length
                       totalPending := ap.2.length },
           [Effect.setAlarm 90, Effect.sharedServersGetCall, Effect.clearAlarm])
    else
      (Except.ok { success := false
                   server := name
                   message := some ("Shared Servers API returned HTTP " ++ toString st) },
       [Effect.setAlarm 90, Effect.sharedServersGetCall])

/-- `get_all_users_with_activity` (lines 518-703) with its outer handlers. -/
def getAllUsersWithActivity (cfg : ServerConfig) (env : ActivityEnv) :
    Except Exn ActResult × List Effect :=
  catchBoundary (activityAttempt cfg env)
    { success := false, server := cfgGetName cfg, message := some "Operation timed out" }
    (fun e => { success := false, server := cfgGetName cfg, message := some e.str })

/-- The single JSON document printed by `main` on stdout. -/
inductive OutDoc where
  | errorNoCommand
  | usageError
  | shareResult (r : OpResult)
  | checkResult (r : CheckResult)
  | removeResult (r : OpResult)
  | activityResult (r : ActResult)
  | usersResult (r : GetUsersResult)
  | timeoutError
  | jsonDecodeError (msg : String)
  | unexpectedError (msg : String)
deriving DecidableEq, Repr

/-- The documents that are error documents rather than operation results. -/
def OutDoc.isErrorDoc : OutDoc → Bool
  | .errorNoCommand => true
  | .usageError => true
  | .timeoutError => true
  | .jsonDecodeError _ => true
  | .unexpectedError _ => true
  | _ => false

/-- The command names `main` dispatches on. -/
def mainCommands : List String :=
  ["share_libraries", "check_user_info", "remove_user",
   "get_all_users_with_activity", "get_all_users_with_library_access"]

/-- Inputs and upstream behaviour for one `main` invocation; `parseConfig`
and `parseLibs` model `json.loads` on the raw argument strings. -/
structure MainEnv where
  parseConfig : String → Except String ServerConfig
  parseLibs : String → Except String (List String)
  shareEnv : ShareEnv
  removeEnv : RemoveEnv
  checkEnv : CheckEnv
  activityEnv : ActivityEnv
  getUsersEnv : GetUsersEnv

/-- Wrap an operation's outcome as the printed document (an exception
escaping an operation would be caught by the `except Exception` of `main`). -/
def docOf {A : Type} (x : Except Exn A) (mk : A → OutDoc) : OutDoc :=
  match x with
  | Except.ok r => mk r
  | Except.error e => OutDoc.unexpectedError e.str

/-- Lines 921-984: command dispatch inside the `try` of `main`. -/
def mainDispatch (argv : List String) (env : MainEnv) : OutDoc × List Effect :=
  let command := argv.getD 1 ""
  if command = "share_libraries" ∧ 5 ≤ argv.length then
    match env.parseConfig (argv.getD 3 "") with
    | Except.error m => (OutDoc.jsonDecodeError m, [])
    | Except.ok cfg =>
      match env.parseLibs (argv.getD 4 "") with
      | Except.error m => (OutDoc.jsonDecodeError m, [])
      | Except.ok libs =>
        let p := shareLibrariesOnServer (argv.getD 2 "") cfg libs env.shareEnv
        (docOf p.1 OutDoc.shareResult, p.2)
  else if command = "check_user_info" ∧ 4 ≤ argv.length then
    match env.parseConfig (argv.getD 3 "") with
    | Except.error m => (OutDoc.jsonDecodeError m, [])
    | Except.ok cfg =>
      let p := checkUserInfo (argv.getD 2 "") cfg env.checkEnv
      (docOf p.1 OutDoc.checkResult, p.2)
  else if command = "remove_user" ∧ 4 ≤ argv.length then
    match env.parseConfig (argv.getD 3 "") with
    | Except.error m => (OutDoc.jsonDecodeError m, [])
    | Except.ok cfg =>
      let p := removeUser (argv.getD 2 "") cfg env.removeEnv
      (docOf p.1 OutDoc.removeResult, p.2)
  else if command = "get_all_users_with_activity" ∧ 3 ≤ argv.length then
    match env.parseConfig (argv.getD 2 "") with
    | Except.error m => (OutDoc.jsonDecodeError m, [])
    | Except.ok cfg =>
      let p := getAllUsersWithActivity cfg env.activityEnv
      (docOf p.1 OutDoc.activityResult, p.2)
  else if command = "get_all_users_with_library_access" ∧ 3 ≤ argv.length then
    match env.parseConfig (argv.getD 2 "") with
    | Except.error m => (OutDoc.jsonDecodeError m, [])
    | Except.ok cfg =>
      let p := getAllUsersWithLibraryAccess cfg env.getUsersEnv
      (docOf p.1 OutDoc.usersResult, p.2)
  else (OutDoc.usageError, [])

/-- `main` (lines 909-997): the printed document, the process exit status,
and the effect trace.  No path calls `sys.exit`, so every path falls off the
end of `main` and the process exits with status 0. -/
def mainRun (argv : List String) (env : MainEnv) : OutDoc × Nat × List Effect :=
  if argv.length < 2 then (OutDoc.errorNoCommand, 0, [])
  else
    let p := mainDispatch argv env
    (p.1, 0, Effect.setAlarm 120 :: (p.2 ++ [Effect.clearAlarm]))

/-! Concrete environments used by the closed counterexample and witness
statements below. -/

/-- A fully populated server config. -/
def cexCfg : ServerConfig :=
  { name := some "Srv", serverId := some "S1", token := some "T"
    url := some "http://srv" }

/-- A healthy upstream for `share_libraries_on_server` where the target user
does not exist yet (direct lookup raises `NotFound`). -/
def baseShareEnv : ShareEnv :=
  { connectAccount := Except.ok "admin"
    resources := Except.ok ["S1"]
    serverConnect := Except.ok ()
    sections := Except.ok [{ key := "1", title := "Movies" }, { key := "2", title := "TV" }]
    userLookup := Except.error (Exn.notFound "user not found")
    updateFriendEmpty := Except.ok ()
    sharedServersGet := Except.ok (200, [])
    deleteShare := Except.ok 200
    updateFriend := Except.ok ()
    inviteFriend := Except.ok () }

/-- Upstream where the invite write raises a `PlexApiException` whose status
text contains the not-found code. -/
def c1InviteEnv : ShareEnv :=
  { baseShareEnv with inviteFriend := Except.error (Exn.plexApi "(404) not_found") }

/-- Upstream where the target user exists and the update write raises the
not-found-class error. -/
def c1UpdateEnv : ShareEnv :=
  { baseShareEnv with
      userLookup := Except.ok { username := "bob", id := "7"
                                servers := [{ machineIdentifier := "S1" }] }
      updateFriend := Except.error (Exn.plexApi "(404) not_found") }

/-- Two shared sections, both flagged shared. -/
def c2Secs : List SectionXml :=
  [{ key := some "1", id := none, shared := some "1" },
   { key := some "2", id := none, shared := some "1" }]

/-- A valid, accepted friend record. -/
def c3Friend : SharedServerXml :=
  { userID := some "7", username := some "bob", email := some "bob@x.com"
    acceptedAt := some "1700000000", invitedAt := none, sections := [] }

/-- Upstream for the users merge whose friend listing contains the same
record twice. -/
def c3Env : GetUsersEnv :=
  { sharedServersResp := Except.ok (200, [c3Friend, c3Friend])
    libsResp := Except.ok (200, [])
    homeResp := Except.ok (404, []) }

/-- Upstream for the users merge with a single valid friend record and an
empty home listing. -/
def c3GoodEnv : GetUsersEnv :=
  { sharedServersResp := Except.ok (200, [c3Friend])
    libsResp := Except.ok (200, [])
    homeResp := Except.ok (200, []) }

/-- An account whose display title matches the identifier used below but
whose username and email do not. -/
def c4FriendA : Friend :=
  { username := some "alice", email := some "alice@example.com", title := some "Bob" }

/-- An account whose username matches the identifier used below. -/
def c4FriendB : Friend :=
  { username := some "Bob", email := some "bob@example.com", title := none }

/-- Upstream for `remove_user` where the direct lookup misses and the friends
list holds the title-matching account before the username-matching one. -/
def c4Env : RemoveEnv :=
  { connectAccount := Except.ok "admin"
    userLookup := Except.error (Exn.notFound "user not found")
    friends := Except.ok [c4FriendA, c4FriendB]
    removeFriend := Except.ok ()
    pendingInvites := Except.ok []
    cancelInvite := Except.ok () }

/-- A healthy upstream for `check_user_info`. -/
def baseCheckEnv : CheckEnv :=
  { connectAccount := Except.ok "admin"
    userLookup := Except.ok { username := "bob", id := "7"
                              servers := [{ machineIdentifier := "S1" }] }
    pendingInvites := Except.ok [] }

/-- An upstream whose first remote call exceeds the 15-second verification
deadline. -/
def timeoutCheckEnv : CheckEnv :=
  { baseCheckEnv with connectAccount := Except.error Exn.timeout }

/-- An upstream whose first remote call exceeds the 60-second deadline of the
mutating operations. -/
def timeoutShareEnv : ShareEnv :=
  { baseShareEnv with connectAccount := Except.error Exn.timeout }

/-- A healthy upstream for `get_all_users_with_activity`. -/
def baseActivityEnv : ActivityEnv :=
  { sharedServersResp := Except.ok (200, [])
    plexConnect := Except.ok ()
    history := fun _ => Except.ok none }

/-- A healthy upstream for `get_all_users_with_library_access`. -/
def baseGetUsersEnv : GetUsersEnv :=
  { sharedServersResp := Except.ok (200, [])
    libsResp := Except.ok (200, [])
    homeResp := Except.ok (200, []) }

/-- A complete `main` environment. -/
def baseMainEnv : MainEnv :=
  { parseConfig := fun _ => Except.ok cexCfg
    parseLibs := fun _ => Except.ok []
    shareEnv := baseShareEnv
    removeEnv := c4Env
    checkEnv := baseCheckEnv
    activityEnv := baseActivityEnv
    getUsersEnv := baseGetUsersEnv }

/-! ### Helper lemmas -/

theorem exn_isException (e : Exn) : e.isException = true := by
  cases e <;> rfl

theorem catchBoundary_ok {A : Type} (r : A) (t : List Effect) (ot : A)
    (oe : Exn → A) : catchBoundary (Except.ok r, t) ot oe = (Except.ok r, t) := rfl

theorem catchBoundary_error {A : Type} (e : Exn) (t : List Effect) (ot : A)
    (oe : Exn → A) :
    catchBoundary (Except.error e, t) ot oe
      = (Except.ok (if e.isTimeout then ot else oe e), t ++ [Effect.clearAlarm]) := by
  unfold catchBoundary
  by_cases h : e.isTimeout = true
  · simp [h]
  · simp [h, exn_isException e]

theorem outcomeClass_total (s : Bool) (w : Option String) :
    outcomeClass s w = OutcomeKind.hardSuccess
      ∨ outcomeClass s w = OutcomeKind.warnSuccess
      ∨ outcomeClass s w = OutcomeKind.failure := by
  unfold outcomeClass
  cases s
  · simp
  · cases w <;> simp

theorem find?_split {α : Type} (p : α → Bool) :
    ∀ (l : List α) (a : α), l.find? p = some a →
      ∃ l1 l2, l = l1 ++ a :: l2 ∧ p a = true ∧ ∀ b ∈ l1, p b = false := by
  intro l
  induction l with
  | nil => intro a h; simp [List.find?] at h
  | cons x xs ih =>
    intro a h
    by_cases hx : p x = true
    · rw [List.find?_cons_of_pos _ hx] at h
      obtain rfl := Option.some.inj h
      exact ⟨[], xs, rfl, hx, by intro b hb; simp at hb⟩
    · rw [List.find?_cons_of_neg _ hx] at h
      obtain ⟨l1, l2, hl, hpa, hall⟩ := ih a h
      refine ⟨x :: l1, l2, by rw [hl]; rfl, hpa, ?_⟩
      intro b hb
      rcases List.mem_cons.mp hb with rfl | hb2
      · exact Bool.eq_false_iff.mpr (fun hc => hx (by simp [hc]))
      · exact hall b hb2

/-! ### C2 — home-user access resolution -/

/-- Claim C2 as stated is false on the code: a restricted home user whose
per-server lookup succeeds with explicit shared entries covering every
library ends up with `library_ids` equal to the full catalog, although the
claim allows that outcome only for an unrestricted user with zero shared
entries. -/
theorem c2_counterexample :
    resolveHomeUserAccess true (Except.ok (200, c2Secs)) ["1", "2"] = ["1", "2"]
      ∧ extractSharedIds c2Secs = ["1", "2"] := by
  constructor <;> rfl

/-- Claim C2 (amended): a failed per-server sharing lookup (exception or
non-200 status) always resolves to the empty access set; and on a successful
(200) lookup the resolved access equals the full catalog exactly when the
user is unrestricted with zero shared entries, or when the explicitly shared
entries themselves coincide with the catalog. -/
theorem c2_home_access_resolution (isRestricted : Bool)
    (lookup : Except Exn (Nat × List SectionXml)) (catalog : List String) :
    (∀ e, lookup = Except.error e →
        resolveHomeUserAccess isRestricted lookup catalog = [])
    ∧ (∀ st secs, lookup = Except.ok (st, secs) → st ≠ 200 →
        resolveHomeUserAccess isRestricted lookup catalog = [])
    ∧ (∀ secs, lookup = Except.ok (200, secs) →
        (resolveHomeUserAccess isRestricted lookup catalog = catalog ↔
          (isRestricted = false ∧ extractSharedIds secs = [])
            ∨ extractSharedIds secs = catalog)) := by
  refine ⟨?_, ?_, ?_⟩
  · intro e he
    rw [he]
    rfl
  · intro st secs hl hst
    rw [hl]
    unfold resolveHomeUserAccess
    simp only [beq_iff_eq, if_neg hst]
  · intro secs hl
    rw [hl]
    unfold resolveHomeUserAccess
    simp only [beq_self_eq_true, if_true]
    cases isRestricted with
    | false =>
      cases hex : extractSharedIds secs with
      | nil => simp [hex]
      | cons a as => simp [hex]
    | true =>
      cases hex : extractSharedIds secs with
      | nil =>
        simp only [Bool.not_true, Bool.false_and, if_false]
        constructor
        · intro h; exact Or.inr h
        · intro h
          rcases h with ⟨hc, _⟩ | h2
          · cases hc
          · exact h2
      | cons a as =>
        simp only [Bool.not_true, Bool.false_and, if_false]
        constructor
        · intro h; exact Or.inr h
        · intro h
          rcases h with ⟨hc, _⟩ | h2
          · cases hc
          · exact h2

/-- Witness for C2 at concrete inputs: an error lookup resolves to `{}`, and
an unrestricted user with a successful empty lookup receives the catalog. -/
theorem c2_witness :
    resolveHomeUserAccess true (Except.error (Exn.generic "boom")) ["1"] = []
      ∧ resolveHomeUserAccess false (Except.ok (200, [])) ["1"] = ["1"] := by
  constructor
  · exact (c2_home_access_resolution true (Except.error (Exn.generic "boom"))
      ["1"]).1 (Exn.generic "boom") rfl
  · exact ((c2_home_access_resolution false (Except.ok (200, []))
      ["1"]).2.2 [] rfl).mpr (Or.inl ⟨rfl, rfl⟩)

/-! ### Reduction of `share_libraries_on_server` under a healthy prefix -/

theorem shareAttempt_eq (userEmail name sid tok ca : String) (cfg : ServerConfig)
    (libs : List String) (env : ShareEnv) (rs : List String)
    (secs : List PlexSection)
    (hn : cfg.name = some name) (hs : cfg.serverId = some sid)
    (ht : cfg.token = some tok)
    (hca : env.connectAccount = Except.ok ca)
    (hrs : env.resources = Except.ok rs) (hmem : rs.contains sid = true)
    (hsc : env.serverConnect = Except.ok ())
    (hsecs : env.sections = Except.ok secs) :
    shareAttempt userEmail cfg libs env
      = ((if libs.isEmpty then shareRevoke userEmail name sid env
          else shareGrant userEmail name secs libs env).1,
         Effect.setAlarm 60 ::
           (if libs.isEmpty then shareRevoke userEmail name sid env
            else shareGrant userEmail name secs libs env).2) := by
  unfold shareAttempt shareAttemptTimed
  rw [hn, hs, ht, hca, hrs, hsc, hsecs]
  simp only [cfgItem, hmem, if_true]

/-! ### C6 — revoke-all is a no-op without an existing grant -/

/-- Claim C6: an empty library-ID list (revoke-all) against a user who is
absent (`NotFound`) or present without access to this server returns
`success = true` with `libraries_shared = 0`, and no remote write primitive
(update or delete) is invoked. -/
theorem c6_revoke_noop (userEmail : String) (cfg : ServerConfig) (env : ShareEnv)
    (name sid tok ca : String) (rs : List String) (secs : List PlexSection)
    (hn : cfg.name = some name) (hs : cfg.serverId = some sid)
    (ht : cfg.token = some tok)
    (hca : env.connectAccount = Except.ok ca)
    (hrs : env.resources = Except.ok rs) (hmem : rs.contains sid = true)
    (hsc : env.serverConnect = Except.ok ())
    (hsecs : env.sections = Except.ok secs) :
    (∀ m, env.userLookup = Except.error (Exn.notFound m) →
        (shareLibrariesOnServer userEmail cfg [] env).1
            = Except.ok { success := true
                          message := "User " ++ userEmail ++ " not found - no action needed"
                          server := name
                          librariesShared := some 0 }
          ∧ noWriteEffects (shareLibrariesOnServer userEmail cfg [] env).2 = true)
    ∧ (∀ u, env.userLookup = Except.ok u →
        u.servers.any (fun sa => sa.machineIdentifier == sid) = false →
        (shareLibrariesOnServer userEmail cfg [] env).1
            = Except.ok { success := true
                          message := "User has no access to " ++ name
                            ++ " - nothing to remove"
                          server := name
                          librariesShared := some 0 }
          ∧ noWriteEffects (shareLibrariesOnServer userEmail cfg [] env).2 = true) := by
  have hA := shareAttempt_eq userEmail name sid tok ca cfg [] env rs secs
    hn hs ht hca hrs hmem hsc hsecs
  constructor
  · intro m hul
    have hR : shareRevoke userEmail name sid env
        = (Except.ok { success := true
                       message := "User " ++ userEmail ++ " not found - no action needed"
                       server := name
                       librariesShared := some 0 }, [Effect.clearAlarm]) := by
      unfold shareRevoke
      rw [hul]
      rfl
    unfold shareLibrariesOnServer
    rw [hA]
    simp only [List.isEmpty_nil, if_true, hR]
    exact ⟨rfl, rfl⟩
  · intro u hul hany
    have hR : shareRevoke userEmail name sid env
        = (Except.ok { success := true
                       message := "User has no access to " ++ name
                         ++ " - nothing to remove"
                       server := name
                       librariesShared := some 0 }, [Effect.clearAlarm]) := by
      unfold shareRevoke
      rw [hul]
      simp [hany]
    unfold shareLibrariesOnServer
    rw [hA]
    simp only [List.isEmpty_nil, if_true, hR]
    exact ⟨rfl, rfl⟩

/-- Witness for C6: the revoke-all no-op on a concrete healthy upstream where
the user lookup raises `NotFound`. -/
theorem c6_witness :
    (shareLibrariesOnServer "u@x.com" cexCfg [] baseShareEnv).1
        = Except.ok { success := true
                      message := "User u@x.com not found - no action needed"
                      server := "Srv"
                      librariesShared := some 0 }
      ∧ noWriteEffects (shareLibrariesOnServer "u@x.com" cexCfg [] baseShareEnv).2
          = true := by
  exact (c6_revoke_noop "u@x.com" cexCfg baseShareEnv "Srv" "S1" "T" "admin"
    ["S1"] [{ key := "1", title := "Movies" }, { key := "2", title := "TV" }]
    rfl rfl rfl rfl rfl (by decide) rfl rfl).1 "user not found" rfl

/-! ### C5 — catalog validation of requested library IDs -/

theorem validateLibraryIds_spec (secs : List PlexSection) :
    ∀ libs : List String,
      (validateLibraryIds secs libs).1.map PlexSection.key
          = libs.filter (fun l => (sectionLookup secs l).isSome)
        ∧ (validateLibraryIds secs libs).2
          = libs.filter (fun l => (sectionLookup secs l).isNone) := by
  intro libs
  induction libs with
  | nil => exact ⟨rfl, rfl⟩
  | cons lid rest ih =>
    obtain ⟨ih1, ih2⟩ := ih
    cases h : sectionLookup secs lid with
    | some s =>
      have hk : s.key = lid := by
        have h2 : secs.reverse.find? (fun t => t.key == lid) = some s := h
        have h3 := List.find?_some h2
        exact eq_of_beq h3
      constructor
      · simp only [validateLibraryIds, h, List.map_cons, hk, ih1, List.filter_cons]
        simp [h]
      · simp only [validateLibraryIds, h, ih2, List.filter_cons]
        simp [h]
    | none =>
      constructor
      · simp only [validateLibraryIds, h, ih1, List.filter_cons]
        simp [h]
      · simp only [validateLibraryIds, h, ih2, List.filter_cons]
        simp [h]

/-- Claim C5: a non-empty request keeps exactly the requested IDs whose
string form is a key of the catalog, with a recorded warning per dropped
unknown ID; and when no requested ID is in the catalog the operation fails
with the no-valid-libraries message without issuing any write. -/
theorem c5_validation_drop (userEmail : String) (cfg : ServerConfig)
    (libs : List String) (env : ShareEnv)
    (name sid tok ca : String) (rs : List String) (secs : List PlexSection)
    (hn : cfg.name = some name) (hs : cfg.serverId = some sid)
    (ht : cfg.token = some tok)
    (hca : env.connectAccount = Except.ok ca)
    (hrs : env.resources = Except.ok rs) (hmem : rs.contains sid = true)
    (hsc : env.serverConnect = Except.ok ())
    (hsecs : env.sections = Except.ok secs)
    (hne : libs.isEmpty = false) :
    ((validateLibraryIds secs libs).1.map PlexSection.key
        = libs.filter (fun l => (sectionLookup secs l).isSome)
      ∧ (validateLibraryIds secs libs).2
        = libs.filter (fun l => (sectionLookup secs l).isNone))
    ∧ (libs.all (fun l => (sectionLookup secs l).isNone) = true →
        (shareLibrariesOnServer userEmail cfg libs env).1
            = Except.ok { success := false
                          message := "No valid library IDs provided"
                          server := name }
        ∧ noWriteEffects (shareLibrariesOnServer userEmail cfg libs env).2 = true
        ∧ ∀ l ∈ libs,
            Effect.logDroppedLibrary l ∈ (shareLibrariesOnServer userEmail cfg libs env).2) := by
  refine ⟨validateLibraryIds_spec secs libs, ?_⟩
  intro hall
  have hallm : ∀ l ∈ libs, (sectionLookup secs l).isNone = true :=
    fun l hl => List.all_eq_true.mp hall l hl
  have hv2 : (validateLibraryIds secs libs).2 = libs := by
    rw [(validateLibraryIds_spec secs libs).2]
    exact List.filter_eq_self.mpr hallm
  have hv1 : (validateLibraryIds secs libs).1 = [] := by
    have hmap : (validateLibraryIds secs libs).1.map PlexSection.key = [] := by
      rw [(validateLibraryIds_spec secs libs).1]
      apply List.filter_eq_nil_iff.mpr
      intro l hl
      have h5 := hallm l hl
      rw [Option.isNone_iff_eq_none] at h5
      simp [h5]
    exact List.map_eq_nil_iff.mp hmap
  have hG : shareGrant userEmail name secs libs env
      = (Except.ok { success := false
                     message := "No valid library IDs provided"
                     server := name },
         libs.map Effect.logDroppedLibrary ++ [Effect.clearAlarm]) := by
    unfold shareGrant
    simp only [hv1, hv2, List.isEmpty_nil, if_true]
  have hA := shareAttempt_eq userEmail name sid tok ca cfg libs env rs secs
    hn hs ht hca hrs hmem hsc hsecs
  have hfull : shareLibrariesOnServer userEmail cfg libs env
      = (Except.ok { success := false
                     message := "No valid library IDs provided"
                     server := name },
         Effect.setAlarm 60 :: (libs.map Effect.logDroppedLibrary ++ [Effect.clearAlarm])) := by
    unfold shareLibrariesOnServer
    rw [hA]
    simp [hne, hG, catchBoundary_ok]
  refine ⟨by rw [hfull], ?_, ?_⟩
  · rw [hfull]
    apply List.all_eq_true.mpr
    intro e he
    simp only [List.mem_cons, List.mem_append, List.mem_map, List.mem_singleton,
      List.not_mem_nil, or_false] at he
    rcases he with rfl | ⟨⟨l, _, rfl⟩ | rfl⟩ <;> rfl
  · intro l hl
    rw [hfull]
    exact List.mem_cons_of_mem _ (List.mem_append_left _ (List.mem_map_of_mem _ hl))

/-- Witness for C5 at concrete inputs: catalog keys `{1, 2}`, request
`["1", "2", "9"]` keeps `["1", "2"]` and drops `"9"`; request `["9"]` alone
fails without any write. -/
theorem c5_witness :
    (validateLibraryIds [{ key := "1", title := "Movies" }, { key := "2", title := "TV" }]
        ["1", "2", "9"]).1.map PlexSection.key = ["1", "2"]
      ∧ (validateLibraryIds [{ key := "1", title := "Movies" }, { key := "2", title := "TV" }]
          ["1", "2", "9"]).2 = ["9"]
      ∧ (shareLibrariesOnServer "u@x.com" cexCfg ["9"] baseShareEnv).1
          = Except.ok { success := false
                        message := "No valid library IDs provided"
                        server := "Srv" }
      ∧ noWriteEffects (shareLibrariesOnServer "u@x.com" cexCfg ["9"] baseShareEnv).2
          = true := by
  have h := c5_validation_drop "u@x.com" cexCfg ["9"] baseShareEnv "Srv" "S1" "T"
    "admin" ["S1"] [{ key := "1", title := "Movies" }, { key := "2", title := "TV" }]
    rfl rfl rfl rfl rfl (by decide) rfl rfl (by decide)
  have h2 := h.2 (by decide)
  exact ⟨by decide, by decide, h2.1, h2.2.1⟩

/-! ### C1 — reclassification of not-found-class write errors -/

theorem shareErrorOutcome (userEmail : String) (cfg : ServerConfig)
    (libs : List String) (env : ShareEnv) (e : Exn) (t : List Effect)
    (h : shareAttempt userEmail cfg libs env = (Except.error e, t)) :
    ∃ res, (shareLibrariesOnServer userEmail cfg libs env).1 = Except.ok res
      ∧ res.success = false ∧ res.warning = none := by
  unfold shareLibrariesOnServer
  rw [h, catchBoundary_error]
  by_cases hT : e.isTimeout = true
  · rw [if_pos hT]
    exact ⟨_, rfl, rfl, rfl⟩
  · rw [if_neg hT]
    exact ⟨_, rfl, rfl, rfl⟩

/-- Claim C1 as stated is false on the code: on the invite-new-user path, a
write error whose status text contains the not-found code ("404") is NOT
reclassified — the operation returns `success = false` with no warning. -/
theorem c1_counterexample :
    (shareLibrariesOnServer "user@example.com" cexCfg ["1"] c1InviteEnv).1
        = Except.ok { success := false
                      message := "(404) not_found"
                      server := "Srv" }
      ∧ contains404 "(404) not_found" = true
      ∧ c1InviteEnv.inviteFriend = Except.error (Exn.plexApi "(404) not_found") := by
  refine ⟨?_, by decide, rfl⟩
  rfl

/-- Claim C1 (amended): only the update-existing-user path reclassifies a
`PlexApiException` whose text contains "404" as success-with-warning; any
other update error is a failure, and on the invite-new-user path every
upstream write error — the 404 class included — yields `success = false`
with no warning. -/
theorem c1_update_404_reclassified (userEmail : String) (cfg : ServerConfig)
    (libs : List String) (env : ShareEnv) (name sid tok ca : String)
    (rs : List String) (secs : List PlexSection)
    (hn : cfg.name = some name) (hs : cfg.serverId = some sid)
    (ht : cfg.token = some tok)
    (hca : env.connectAccount = Except.ok ca)
    (hrs : env.resources = Except.ok rs) (hmem : rs.contains sid = true)
    (hsc : env.serverConnect = Except.ok ())
    (hsecs : env.sections = Except.ok secs)
    (hne : libs.isEmpty = false)
    (hval : (validateLibraryIds secs libs).1.isEmpty = false) :
    (∀ u e, env.userLookup = Except.ok u → env.updateFriend = Except.error e →
        (e.isPlexApiException && contains404 e.str) = true →
        ∃ res, (shareLibrariesOnServer userEmail cfg libs env).1 = Except.ok res
          ∧ res.success = true
          ∧ res.warning = some "404 error ignored - verify manually if needed")
    ∧ (∀ u e, env.userLookup = Except.ok u → env.updateFriend = Except.error e →
        (e.isPlexApiException && contains404 e.str) = false →
        ∃ res, (shareLibrariesOnServer userEmail cfg libs env).1 = Except.ok res
          ∧ res.success = false ∧ res.warning = none)
    ∧ (∀ m e, env.userLookup = Except.error (Exn.notFound m) →
        env.inviteFriend = Except.error e →
        ∃ res, (shareLibrariesOnServer userEmail cfg libs env).1 = Except.ok res
          ∧ res.success = false ∧ res.warning = none) := by
  have hA := shareAttempt_eq userEmail name sid tok ca cfg libs env rs secs
    hn hs ht hca hrs hmem hsc hsecs
  refine ⟨?_, ?_, ?_⟩
  · intro u e hul hupd h404
    have hfull : (shareLibrariesOnServer userEmail cfg libs env).1
        = Except.ok { success := true
                      message := "Library access updated (404 ignored)"
                      server := name
                      librariesShared := some (validateLibraryIds secs libs).1.length
                      libraryDetails := some (libraryDetailsOf (validateLibraryIds secs libs).1)
                      warning := some "404 error ignored - verify manually if needed" } := by
      unfold shareLibrariesOnServer
      rw [hA]
      simp only [hne, Bool.false_eq_true, if_false]
      unfold shareGrant
      simp only [hval, Bool.false_eq_true, if_false, hul, hupd, h404, if_true]
      rfl
    exact ⟨_, hfull, rfl, rfl⟩
  · intro u e hul hupd h404
    have hG : shareAttempt userEmail cfg libs env
        = (Except.error e,
           Effect.setAlarm 60 ::
             ((validateLibraryIds secs libs).2.map Effect.logDroppedLibrary
               ++ [Effect.updateFriendCall
                     ((validateLibraryIds secs libs).1.map PlexSection.key)])) := by
      rw [hA]
      simp only [hne, Bool.false_eq_true, if_false]
      unfold shareGrant
      simp only [hval, Bool.false_eq_true, if_false, hul, hupd, h404]
    exact shareErrorOutcome userEmail cfg libs env e _ hG
  · intro m e hul hinv
    have hG : shareAttempt userEmail cfg libs env
        = (Except.error e,
           Effect.setAlarm 60 ::
             ((validateLibraryIds secs libs).2.map Effect.logDroppedLibrary
               ++ [Effect.inviteFriendCall
                     ((validateLibraryIds secs libs).1.map PlexSection.key)])) := by
      rw [hA]
      simp only [hne, Bool.false_eq_true, if_false]
      unfold shareGrant
      simp only [hval, Bool.false_eq_true, if_false, hul, hinv]
      rfl
    exact shareErrorOutcome userEmail cfg libs env e _ hG

/-- Witness for C1 on the update path: a concrete 404-class update error
yields success with the warning field set. -/
theorem c1_witness :
    ∃ res, (shareLibrariesOnServer "user@example.com" cexCfg ["1"] c1UpdateEnv).1
        = Except.ok res
      ∧ res.success = true
      ∧ res.warning = some "404 error ignored - verify manually if needed" := by
  exact (c1_update_404_reclassified "user@example.com" cexCfg ["1"] c1UpdateEnv
      "Srv" "S1" "T" "admin" ["S1"]
      [{ key := "1", title := "Movies" }, { key := "2", title := "TV" }]
      rfl rfl rfl rfl rfl (by decide) rfl rfl (by decide) (by decide)).1
    { username := "bob", id := "7", servers := [{ machineIdentifier := "S1" }] }
    (Exn.plexApi "(404) not_found") rfl rfl (by decide)

/-! ### C4 — resolver precedence in the fallback scan of `remove_user` -/

/-- Claim C4 as stated is false on the code: the fallback scan is
account-major, not field-major.  With identifier `"Bob"`, account A (earlier
in the list) matching only by display title and account B (later) matching
by username, A is resolved and removed, not B. -/
theorem c4_counterexample :
    (removeUser "Bob" cexCfg c4Env).2
        = [Effect.setAlarm 60, Effect.removeFriendCall c4FriendA, Effect.clearAlarm]
      ∧ Effect.removeFriendCall c4FriendB ∉ (removeUser "Bob" cexCfg c4Env).2
      ∧ matchByUsername "bob" c4FriendB = true
      ∧ matchByUsername "bob" c4FriendA = false
      ∧ matchByEmail "bob" c4FriendA = false
      ∧ matchByTitle "bob" c4FriendA = true
      ∧ c4Env.friends = Except.ok [c4FriendA, c4FriendB] := by
  refine ⟨?_, by decide, by decide, by decide, by decide, by decide, rfl⟩
  rfl

/-- Claim C4 (amended): the fallback scan resolves the FIRST account in list
order that matches the identifier on any of username, email or display title
(the three fields are tried in that order only within each single account);
that account is the one passed to the remove write. -/
theorem c4_first_match_resolution (identifier : String) (cfg : ServerConfig)
    (env : RemoveEnv) (name sid tok ca m : String) (fs : List Friend) (f : Friend)
    (hn : cfg.name = some name) (hs : cfg.serverId = some sid)
    (ht : cfg.token = some tok)
    (hca : env.connectAccount = Except.ok ca)
    (hul : env.userLookup = Except.error (Exn.notFound m))
    (hfs : env.friends = Except.ok fs)
    (hscan : scanFriends identifier fs = some f)
    (hrm : env.removeFriend = Except.ok ()) :
    Effect.removeFriendCall f ∈ (removeUser identifier cfg env).2
      ∧ (removeUser identifier cfg env).1
          = Except.ok { success := true
                        message := "Successfully removed " ++ identifier
                        server := name }
      ∧ ∃ l1 l2, fs = l1 ++ f :: l2
          ∧ friendMatches (pyLower identifier) f = true
          ∧ ∀ g ∈ l1, friendMatches (pyLower identifier) g = false := by
  have hRF : removeFound identifier name f env
      = (Except.ok { success := true
                     message := "Successfully removed " ++ identifier
                     server := name },
         [Effect.removeFriendCall f, Effect.clearAlarm]) := by
    unfold removeFound
    rw [hrm]
  have hAT : removeAttemptTimed identifier name cfg env
      = removeFound identifier name f env := by
    unfold removeAttemptTimed
    rw [ht, hca, hul]
    simp only [cfgItem, hfs, hscan, Exn.isNotFound, if_true]
  have hA : removeAttempt identifier cfg env
      = (Except.ok { success := true
                     message := "Successfully removed " ++ identifier
                     server := name },
         Effect.setAlarm 60 :: [Effect.removeFriendCall f, Effect.clearAlarm]) := by
    unfold removeAttempt
    rw [hn, hs]
    simp only [cfgItem, hAT, hRF]
  have hfull : removeUser identifier cfg env
      = (Except.ok { success := true
                     message := "Successfully removed " ++ identifier
                     server := name },
         Effect.setAlarm 60 :: [Effect.removeFriendCall f, Effect.clearAlarm]) := by
    unfold removeUser
    rw [hA, catchBoundary_ok]
  refine ⟨?_, by rw [hfull], ?_⟩
  · rw [hfull]
    simp
  · exact find?_split (friendMatches (pyLower identifier)) fs f hscan

/-- Witness for C4: the amended first-match rule on the concrete friends
list of the counterexample. -/
theorem c4_witness :
    Effect.removeFriendCall c4FriendA ∈ (removeUser "Bob" cexCfg c4Env).2
      ∧ (removeUser "Bob" cexCfg c4Env).1
          = Except.ok { success := true
                        message := "Successfully removed Bob"
                        server := "Srv" }
      ∧ ∃ l1 l2, [c4FriendA, c4FriendB] = l1 ++ c4FriendA :: l2
          ∧ friendMatches (pyLower "Bob") c4FriendA = true
          ∧ ∀ g ∈ l1, friendMatches (pyLower "Bob") g = false := by
  exact c4_first_match_resolution "Bob" cexCfg c4Env "Srv" "S1" "T" "admin"
    "user not found" [c4FriendA, c4FriendB] c4FriendA
    rfl rfl rfl rfl rfl rfl (by decide) rfl

/-! ### Lemmas on the two users-merge loops -/

theorem friendLoop_home_false : ∀ (recs : List SharedServerXml) (es : List UserEntry),
    friendLoop recs = Except.ok es → ∀ e ∈ es, e.isHomeUser = false := by
  intro recs
  induction recs with
  | nil =>
    intro es h e he
    simp only [friendLoop] at h
    obtain rfl := Except.ok.inj h
    simp at he
  | cons r rest ih =>
    intro es h e he
    by_cases hv : validFriendRec r = true
    · simp only [friendLoop, hv, if_true] at h
      cases hp : pyInt (r.userID.getD "") with
      | error e2 => rw [hp] at h; cases h
      | ok n =>
        rw [hp] at h
        cases hf : friendLoop rest with
        | error e2 => rw [hf] at h; cases h
        | ok es2 =>
          rw [hf] at h
          obtain rfl := Except.ok.inj h
          rcases List.mem_cons.mp he with rfl | he2
          · rfl
          · exact ih es2 hf e he2
    · simp only [friendLoop, hv, Bool.false_eq_true, if_false] at h
      exact ih es h e he

theorem friendLoop_mem : ∀ (recs : List SharedServerXml) (es : List UserEntry)
    (r : SharedServerXml), friendLoop recs = Except.ok es → r ∈ recs →
    validFriendRec r = true → ∃ n, mkFriendEntry r n ∈ es := by
  intro recs
  induction recs with
  | nil => intro es r _ hr; simp at hr
  | cons x rest ih =>
    intro es r h hr hv
    by_cases hx : validFriendRec x = true
    · simp only [friendLoop, hx, if_true] at h
      cases hp : pyInt (x.userID.getD "") with
      | error e2 => rw [hp] at h; cases h
      | ok n =>
        rw [hp] at h
        cases hf : friendLoop rest with
        | error e2 => rw [hf] at h; cases h
        | ok es2 =>
          rw [hf] at h
          obtain rfl := Except.ok.inj h
          rcases List.mem_cons.mp hr with rfl | hr2
          · exact ⟨n, List.mem_cons_self _ _⟩
          · obtain ⟨n2, hn2⟩ := ih es2 r hf hr2 hv
            exact ⟨n2, List.mem_cons_of_mem _ hn2⟩
    · simp only [friendLoop, hx, Bool.false_eq_true, if_false] at h
      rcases List.mem_cons.mp hr with rfl | hr2
      · rw [hv] at hx; cases hx rfl
      · exact ih es r h hr2 hv

theorem homeLoop_mem : ∀ (homes : List (HomeUserXml × Except Exn (Nat × List SectionXml)))
    (allLibs seen : List String) (e : UserEntry),
    e ∈ homeLoop allLibs seen homes →
    e.email ∉ seen ∧ e.isHomeUser = true ∧ e.libraryIds ≠ []
      ∧ ∃ u lk, (u, lk) ∈ homes ∧ u.admin ≠ some "1" ∧ truthyS u.email = true
          ∧ e.libraryIds = resolveHomeUserAccess (u.restricted == some "1") lk allLibs
          ∧ e.email = pyLower (u.email.getD "") := by
  intro homes
  induction homes with
  | nil => intro allLibs seen e he; simp [homeLoop] at he
  | cons p rest ih =>
    intro allLibs seen e he
    obtain ⟨u, lk⟩ := p
    by_cases hskip : (u.admin == some "1" || !truthyS u.email) = true
    · simp only [homeLoop, hskip, if_true] at he
      obtain ⟨h1, h2, h3, u2, lk2, hm, hrest⟩ := ih allLibs seen e he
      exact ⟨h1, h2, h3, u2, lk2, List.mem_cons_of_mem _ hm, hrest⟩
    · simp only [homeLoop, hskip, Bool.false_eq_true, if_false] at he
      by_cases hseen : seen.contains (pyLower (u.email.getD "")) = true
      · simp only [hseen, if_true] at he
        obtain ⟨h1, h2, h3, u2, lk2, hm, hrest⟩ := ih allLibs seen e he
        exact ⟨h1, h2, h3, u2, lk2, List.mem_cons_of_mem _ hm, hrest⟩
      · simp only [hseen, Bool.false_eq_true, if_false] at he
        by_cases hlib :
            (resolveHomeUserAccess (u.restricted == some "1") lk allLibs).isEmpty = true
        · simp only [hlib, if_true] at he
          obtain ⟨h1, h2, h3, u2, lk2, hm, hrest⟩ := ih allLibs seen e he
          exact ⟨h1, h2, h3, u2, lk2, List.mem_cons_of_mem _ hm, hrest⟩
        · simp only [hlib, Bool.false_eq_true, if_false] at he
          cases hpid : pyIntOr0 u.id with
          | error e2 => rw [hpid] at he; simp at he
          | ok pid =>
            rw [hpid] at he
            have hadmin : u.admin ≠ some "1" := by
              intro hc
              apply hskip
              simp [hc]
            have hemail : truthyS u.email = true := by
              by_contra hc
              apply hskip
              simp [Bool.not_eq_true] at hc
              simp [hc]
            rcases List.mem_cons.mp he with rfl | he2
            · refine ⟨by simpa using hseen, rfl, ?_, u, lk, List.mem_cons_self _ _,
                hadmin, hemail, rfl, rfl⟩
              intro hc
              simp only [mkHomeEntry] at hc
              rw [hc] at hlib
              exact hlib rfl
            · obtain ⟨h1, h2, h3, u2, lk2, hm, hrest⟩ := ih allLibs _ e he2
              refine ⟨fun hc => h1 (List.mem_cons_of_mem _ hc), h2, h3,
                u2, lk2, List.mem_cons_of_mem _ hm, hrest⟩

theorem homeLoop_nodup : ∀ (homes : List (HomeUserXml × Except Exn (Nat × List SectionXml)))
    (allLibs seen : List String),
    ((homeLoop allLibs seen homes).map UserEntry.email).Nodup := by
  intro homes
  induction homes with
  | nil => intro allLibs seen; simp [homeLoop]
  | cons p rest ih =>
    intro allLibs seen
    obtain ⟨u, lk⟩ := p
    by_cases hskip : (u.admin == some "1" || !truthyS u.email) = true
    · simp only [homeLoop, hskip, if_true]
      exact ih allLibs seen
    · simp only [homeLoop, hskip, Bool.false_eq_true, if_false]
      by_cases hseen : seen.contains (pyLower (u.email.getD "")) = true
      · simp only [hseen, if_true]
        exact ih allLibs seen
      · simp only [hseen, Bool.false_eq_true, if_false]
        by_cases hlib :
            (resolveHomeUserAccess (u.restricted == some "1") lk allLibs).isEmpty = true
        · simp only [hlib, if_true]
          exact ih allLibs seen
        · simp only [hlib, Bool.false_eq_true, if_false]
          cases hpid : pyIntOr0 u.id with
          | error e2 => simp
          | ok pid =>
            simp only [List.map_cons, List.nodup_cons]
            constructor
            · intro hc
              obtain ⟨e, he, heq⟩ := List.mem_map.mp hc
              have := (homeLoop_mem rest allLibs _ e he).1
              rw [heq] at this
              exact this (List.mem_cons_self _ _)
            · exact ih allLibs _

theorem homePart_mem (allLibs seen : List String)
    (resp : Except Exn (Nat × List (HomeUserXml × Except Exn (Nat × List SectionXml))))
    (e : UserEntry) (he : e ∈ homePart allLibs seen resp) :
    e.email ∉ seen ∧ e.isHomeUser = true ∧ e.libraryIds ≠ [] := by
  cases resp with
  | error e2 => simp [homePart] at he
  | ok pr =>
    obtain ⟨hst, homes⟩ := pr
    simp only [homePart] at he
    by_cases h2 : (hst == 200) = true
    · rw [if_pos h2] at he
      obtain ⟨a, b, c, _⟩ := homeLoop_mem homes allLibs seen e he
      exact ⟨a, b, c⟩
    · rw [if_neg h2] at he
      simp at he

theorem homePart_nodup (allLibs seen : List String)
    (resp : Except Exn (Nat × List (HomeUserXml × Except Exn (Nat × List SectionXml)))) :
    ((homePart allLibs seen resp).map UserEntry.email).Nodup := by
  cases resp with
  | error e2 => simp [homePart]
  | ok pr =>
    obtain ⟨hst, homes⟩ := pr
    simp only [homePart]
    by_cases h2 : (hst == 200) = true
    · rw [if_pos h2]
      exact homeLoop_nodup homes allLibs seen
    · rw [if_neg h2]
      simp

theorem getUsersAttempt_ok_inv (cfg : ServerConfig) (env : GetUsersEnv)
    (R : GetUsersResult) (t : List Effect)
    (h : getUsersAttempt cfg env = (Except.ok R, t)) :
    ∃ fes st recs, env.sharedServersResp = Except.ok (st, recs)
      ∧ friendPart st recs = Except.ok fes
      ∧ R.success = true
      ∧ R.users = fes ++ homePart (computeAllLibs cfg.url env.libsResp)
          (fes.map UserEntry.email) env.homeResp := by
  unfold getUsersAttempt at h
  cases hn : cfg.name with
  | none => simp [hn, cfgItem, Prod.ext_iff] at h
  | some name =>
  simp only [hn, cfgItem] at h
  cases hcs : cfg.serverId with
  | none => simp [hcs, cfgItem, Prod.ext_iff] at h
  | some sid =>
  simp only [hcs, cfgItem] at h
  cases hct : cfg.token with
  | none => simp [hct, cfgItem, Prod.ext_iff] at h
  | some tok =>
  simp only [hct, cfgItem] at h
  cases hss : env.sharedServersResp with
  | error e => simp [hss, Prod.ext_iff] at h
  | ok pr =>
  obtain ⟨st, recs⟩ := pr
  simp only [hss] at h
  cases hfl : friendPart st recs with
  | error e => simp [hfl, Prod.ext_iff] at h
  | ok fes =>
  simp only [hfl] at h
  injection h with h1 h2
  have h3 := Except.ok.inj h1
  refine ⟨fes, st, recs, rfl, hfl, ?_, ?_⟩
  · rw [← h3]
  · rw [← h3]

theorem getUsers_ok_cases (cfg : ServerConfig) (env : GetUsersEnv)
    (r : GetUsersResult)
    (h : (getAllUsersWithLibraryAccess cfg env).1 = Except.ok r) :
    (r.users = [] ∧ r.success = false)
      ∨ ∃ t, getUsersAttempt cfg env = (Except.ok r, t) := by
  unfold getAllUsersWithLibraryAccess at h
  rcases hA : getUsersAttempt cfg env with ⟨x, t⟩
  rw [hA] at h
  cases x with
  | ok R =>
    simp only [catchBoundary_ok] at h
    have h3 := Except.ok.inj h
    subst h3
    exact Or.inr ⟨t, rfl⟩
  | error e =>
    rw [catchBoundary_error] at h
    by_cases hT : e.isTimeout = true
    · rw [if_pos hT] at h
      left
      rw [← Except.ok.inj h]
      exact ⟨rfl, rfl⟩
    · rw [if_neg hT] at h
      left
      rw [← Except.ok.inj h]
      exact ⟨rfl, rfl⟩

/-! ### C3 — dedup and precedence in the users merge -/

/-- Claim C3 as stated is false on the code: friend records are never checked
against `seen_emails`, so a friend listing containing the same record twice
yields a merged list with a duplicated lowercased email. -/
theorem c3_counterexample :
    (getAllUsersWithLibraryAccess cexCfg c3Env).1
        = Except.ok { success := true
                      server := "Srv"
                      serverId := some "S1"
                      users := [mkFriendEntry c3Friend 7, mkFriendEntry c3Friend 7]
                      activeCount := 2
                      pendingCount := 0
                      homeUsersCount := 0 }
      ∧ ¬ (([mkFriendEntry c3Friend 7, mkFriendEntry c3Friend 7].map
              UserEntry.email).Nodup) := by
  constructor
  · rfl
  · decide

/-- Claim C3 (amended): in the merged users list, a home-user entry never
carries the lowercased email of any friend-derived entry (the friend version
survives and the home version is discarded), and the merged emails are
duplicate-free whenever the friend-derived entries themselves are — the code
deduplicates home users against friends and against each other but never
friend records against each other. -/
theorem c3_merge_dedup (cfg : ServerConfig) (env : GetUsersEnv)
    (r : GetUsersResult) (friends : List SharedServerXml) (fes : List UserEntry)
    (hss : env.sharedServersResp = Except.ok (200, friends))
    (hfl : friendLoop friends = Except.ok fes)
    (hok : (getAllUsersWithLibraryAccess cfg env).1 = Except.ok r)
    (hsu : r.success = true) :
    ((fes.map UserEntry.email).Nodup → (r.users.map UserEntry.email).Nodup)
    ∧ (∀ u ∈ r.users, u.isHomeUser = true → u.email ∉ fes.map UserEntry.email)
    ∧ (∀ rec ∈ friends, validFriendRec rec = true →
        ∃ e ∈ r.users, e.isHomeUser = false
          ∧ e.email = pyLower (rec.email.getD "")) := by
  rcases getUsers_ok_cases cfg env r hok with ⟨hu0, hs0⟩ | ⟨t, hA⟩
  · rw [hs0] at hsu; cases hsu
  · obtain ⟨fes2, st, recs, hss2, hfl2, hsucc, husers⟩ :=
      getUsersAttempt_ok_inv cfg env r t hA
    rw [hss] at hss2
    obtain ⟨h1, h2⟩ := Prod.mk.inj (Except.ok.inj hss2)
    subst h1
    subst h2
    simp only [friendPart, if_true] at hfl2
    rw [hfl] at hfl2
    have hfes : fes2 = fes := (Except.ok.inj hfl2).symm
    rw [hfes] at husers
    refine ⟨?_, ?_, ?_⟩
    · intro hnd
      rw [husers, List.map_append]
      refine List.Nodup.append hnd (homePart_nodup _ _ _) ?_
      intro a h1 h2
      obtain ⟨e, he, heq⟩ := List.mem_map.mp h2
      have h3 := (homePart_mem _ _ _ e he).1
      rw [heq] at h3
      exact h3 h1
    · intro u hu hh
      rw [husers] at hu
      rcases List.mem_append.mp hu with hu1 | hu2
      · rw [friendLoop_home_false friends fes hfl u hu1] at hh
        cases hh
      · exact (homePart_mem _ _ _ u hu2).1
    · intro rec hr hv
      obtain ⟨n, hn⟩ := friendLoop_mem friends fes rec hfl hr hv
      refine ⟨mkFriendEntry rec n, ?_, rfl, rfl⟩
      rw [husers]
      exact List.mem_append_left _ hn

/-- Witness for C3 (amended): on a healthy upstream with a single friend
record and an empty home listing, the merged result is duplicate-free. -/
theorem c3_witness :
    (([mkFriendEntry c3Friend 7] : List UserEntry).map UserEntry.email).Nodup :=
  (c3_merge_dedup cexCfg c3GoodEnv
    { success := true
      server := "Srv"
      serverId := some "S1"
      users := [mkFriendEntry c3Friend 7]
      activeCount := 1
      pendingCount := 0
      homeUsersCount := 0 }
    [c3Friend] [mkFriendEntry c3Friend 7] rfl rfl rfl rfl).1 (by decide)

/-! ### C10 — which records appear in the merged users list -/

theorem friendPart_home_false (st : Nat) (recs : List SharedServerXml)
    (fes : List UserEntry) (h : friendPart st recs = Except.ok fes) :
    ∀ e ∈ fes, e.isHomeUser = false := by
  unfold friendPart at h
  by_cases hst : st = 200
  · rw [if_pos hst] at h
    exact friendLoop_home_false recs fes h
  · rw [if_neg hst] at h
    obtain rfl := Except.ok.inj h
    intro e he
    simp at he

/-- Claim C10: the merged users list never contains a home-user entry with
empty resolved access; every home-derived entry stems from a non-admin home
record carrying an email, with its access resolved by the per-server lookup;
and every valid friend record contributes an entry even when its
shared-section list is empty. -/
theorem c10_home_user_filtering :
    (∀ (cfg : ServerConfig) (env : GetUsersEnv) (r : GetUsersResult),
        (getAllUsersWithLibraryAccess cfg env).1 = Except.ok r →
        ∀ u ∈ r.users, u.isHomeUser = true → u.libraryIds ≠ [])
    ∧ (∀ (allLibs seen : List String)
        (homes : List (HomeUserXml × Except Exn (Nat × List SectionXml)))
        (e : UserEntry), e ∈ homeLoop allLibs seen homes →
        ∃ u lk, (u, lk) ∈ homes ∧ u.admin ≠ some "1" ∧ truthyS u.email = true
          ∧ e.libraryIds = resolveHomeUserAccess (u.restricted == some "1") lk allLibs
          ∧ e.libraryIds ≠ [] ∧ e.email = pyLower (u.email.getD ""))
    ∧ (∀ (recs : List SharedServerXml) (fes : List UserEntry)
        (rec : SharedServerXml),
        friendLoop recs = Except.ok fes → rec ∈ recs → validFriendRec rec = true →
        ∃ n, mkFriendEntry rec n ∈ fes
          ∧ (mkFriendEntry rec n).libraryIds = extractSharedIds rec.sections
          ∧ (mkFriendEntry rec n).isHomeUser = false) := by
  refine ⟨?_, ?_, ?_⟩
  · intro cfg env r hok u hu hh
    rcases getUsers_ok_cases cfg env r hok with ⟨hu0, _⟩ | ⟨t, hA⟩
    · rw [hu0] at hu; simp at hu
    · obtain ⟨fes, st, recs, _, hfl, _, husers⟩ :=
        getUsersAttempt_ok_inv cfg env r t hA
      rw [husers] at hu
      rcases List.mem_append.mp hu with hu1 | hu2
      · rw [friendPart_home_false st recs fes hfl u hu1] at hh
        cases hh
      · exact (homePart_mem _ _ _ u hu2).2.2
  · intro allLibs seen homes e he
    obtain ⟨_, _, hne, u, lk, hm, hadmin, hemail, hlib, hmail⟩ :=
      homeLoop_mem homes allLibs seen e he
    exact ⟨u, lk, hm, hadmin, hemail, hlib, hne, hmail⟩
  · intro recs fes rec hfl hr hv
    obtain ⟨n, hn⟩ := friendLoop_mem recs fes rec hfl hr hv
    exact ⟨n, hn, rfl, rfl⟩

/-- Witness for C10: the friend-inclusion part at a concrete record whose
entry is present with its (empty) shared-section list. -/
theorem c10_witness :
    ∃ n, mkFriendEntry c3Friend n ∈ ([mkFriendEntry c3Friend 7] : List UserEntry)
      ∧ (mkFriendEntry c3Friend n).libraryIds = extractSharedIds c3Friend.sections
      ∧ (mkFriendEntry c3Friend n).isHomeUser = false :=
  c10_home_user_filtering.2.2 [c3Friend] [mkFriendEntry c3Friend 7] c3Friend
    rfl (List.mem_cons_self _ _) (by decide)

/-! ### C7 — closed three-way outcomes, no escaping exception -/

theorem catchBoundary_isOk {A : Type} (p : Except Exn A × List Effect) (ot : A)
    (oe : Exn → A) : ∃ r, (catchBoundary p ot oe).1 = Except.ok r := by
  rcases p with ⟨x, t⟩
  cases x with
  | ok r => exact ⟨r, rfl⟩
  | error e =>
    rw [catchBoundary_error]
    exact ⟨_, rfl⟩

/-- Claim C7: for every input and upstream behaviour — raised exceptions and
timeouts included — each public operation returns a structured outcome that
is a hard success, a success-with-warning, or a failure; no exception
escapes to the caller. -/
theorem c7_structured_outcomes (userEmail identifier : String)
    (cfg : ServerConfig) (libs : List String) (se : ShareEnv) (re : RemoveEnv)
    (ce : CheckEnv) (ge : GetUsersEnv) :
    (∃ r, (shareLibrariesOnServer userEmail cfg libs se).1 = Except.ok r
      ∧ (outcomeClass r.success r.warning = OutcomeKind.hardSuccess
          ∨ outcomeClass r.success r.warning = OutcomeKind.warnSuccess
          ∨ outcomeClass r.success r.warning = OutcomeKind.failure))
    ∧ (∃ r, (removeUser identifier cfg re).1 = Except.ok r
      ∧ (outcomeClass r.success r.warning = OutcomeKind.hardSuccess
          ∨ outcomeClass r.success r.warning = OutcomeKind.warnSuccess
          ∨ outcomeClass r.success r.warning = OutcomeKind.failure))
    ∧ (∃ r, (checkUserInfo userEmail cfg ce).1 = Except.ok r
      ∧ (outcomeClass r.success none = OutcomeKind.hardSuccess
          ∨ outcomeClass r.success none = OutcomeKind.warnSuccess
          ∨ outcomeClass r.success none = OutcomeKind.failure))
    ∧ (∃ r, (getAllUsersWithLibraryAccess cfg ge).1 = Except.ok r
      ∧ (outcomeClass r.success none = OutcomeKind.hardSuccess
          ∨ outcomeClass r.success none = OutcomeKind.warnSuccess
          ∨ outcomeClass r.success none = OutcomeKind.failure)) := by
  refine ⟨?_, ?_, ?_, ?_⟩
  · obtain ⟨r, hr⟩ := catchBoundary_isOk (shareAttempt userEmail cfg libs se)
      { success := false, message := "Operation timed out", server := cfgGetName cfg }
      (fun e => { success := false, message := e.str, server := cfgGetName cfg })
    exact ⟨r, hr, outcomeClass_total r.success r.warning⟩
  · obtain ⟨r, hr⟩ := catchBoundary_isOk (removeAttempt identifier cfg re)
      { success := false, message := "Operation timed out", server := cfgGetName cfg }
      (fun e => { success := false, message := e.str, server := cfgGetName cfg })
    exact ⟨r, hr, outcomeClass_total r.success r.warning⟩
  · obtain ⟨r, hr⟩ := catchBoundary_isOk (checkAttempt userEmail cfg ce)
      { success := false, message := some "Verification timed out"
        server := some (cfgGetName cfg) }
      (fun e => { success := false, message := some e.str
                  server := some (cfgGetName cfg) })
    exact ⟨r, hr, outcomeClass_total r.success none⟩
  · obtain ⟨r, hr⟩ := catchBoundary_isOk (getUsersAttempt cfg ge)
      { success := false, server := cfgGetName cfg
        message := some "Operation timed out" }
      (fun e => { success := false, server := cfgGetName cfg, message := some e.str })
    exact ⟨r, hr, outcomeClass_total r.success none⟩

/-! ### C8 — timeout budgets and their scoping -/

theorem catchBoundary_trace_cons {A : Type} (x : Except Exn A) (eff : Effect)
    (t : List Effect) (ot : A) (oe : Exn → A) :
    ∃ t2, (catchBoundary (x, eff :: t) ot oe).2 = eff :: t2 := by
  cases x with
  | ok r => exact ⟨t, rfl⟩
  | error e =>
    rw [catchBoundary_error]
    exact ⟨t ++ [Effect.clearAlarm], rfl⟩

theorem checkFinish_trace (cfg : ServerConfig) (ui : UserInfo) :
    (checkFinish cfg ui).2 = [Effect.clearAlarm] := by
  rcases cfg with ⟨cn, cs, ct, cu⟩
  cases cn <;> cases cs <;> rfl

theorem checkAttemptBody_no_alarm (u : String) (cfg : ServerConfig)
    (env : CheckEnv) (n : Nat) :
    Effect.setAlarm n ∉ (checkAttemptBody u cfg env).2 := by
  unfold checkAttemptBody
  cases hct : cfg.token with
  | none => simp [cfgItem]
  | some tok =>
  cases hca : env.connectAccount with
  | error e => simp [cfgItem]
  | ok a =>
  cases hul : env.userLookup with
  | ok pu => simp [cfgItem, checkFinish_trace]
  | error e =>
    by_cases hnf : e.isNotFound = true
    · cases hpi : env.pendingInvites with
      | error e2 => simp [cfgItem, hnf]
      | ok invs =>
        cases hfi : findInviteByEmailCk (pyLower u) invs with
        | error e3 => simp [cfgItem, hnf, hfi]
        | ok b => simp [cfgItem, hnf, hfi, checkFinish_trace]
    · simp [cfgItem, hnf]

/-- Claim C8: the mutating operations arm a 60-unit alarm, the verify-only
check arms 15 (and only 15 — it is not governed by the 60-unit budget),
`main` arms a 120-unit alarm over the whole dispatch, and a deadline
exceeded during the body is classified as a `success = false` timeout
outcome. -/
theorem c8_timeout_budgets (userEmail identifier : String) (cfg : ServerConfig)
    (libs : List String) (se : ShareEnv) (re : RemoveEnv) (ce : CheckEnv)
    (argv : List String) (me : MainEnv) (name sid : String)
    (hn : cfg.name = some name) (hs : cfg.serverId = some sid) :
    (∃ t, (shareLibrariesOnServer userEmail cfg libs se).2
        = Effect.setAlarm 60 :: t)
    ∧ (∃ t, (removeUser identifier cfg re).2 = Effect.setAlarm 60 :: t)
    ∧ (∃ t, (checkUserInfo userEmail cfg ce).2 = Effect.setAlarm 15 :: t)
    ∧ (∀ n, Effect.setAlarm n ∈ (checkUserInfo userEmail cfg ce).2 → n = 15)
    ∧ (2 ≤ argv.length → ∃ t, (mainRun argv me).2.2 = Effect.setAlarm 120 :: t)
    ∧ (∀ t, shareAttempt userEmail cfg libs se = (Except.error Exn.timeout, t) →
        (shareLibrariesOnServer userEmail cfg libs se).1
          = Except.ok { success := false
                        message := "Operation timed out"
                        server := cfgGetName cfg })
    ∧ (∀ t, checkAttempt userEmail cfg ce = (Except.error Exn.timeout, t) →
        (checkUserInfo userEmail cfg ce).1
          = Except.ok { success := false
                        message := some "Verification timed out"
                        server := some (cfgGetName cfg) }) := by
  have hS : shareAttempt userEmail cfg libs se
      = ((shareAttemptTimed userEmail sid name cfg libs se).1,
         Effect.setAlarm 60 :: (shareAttemptTimed userEmail sid name cfg libs se).2) := by
    unfold shareAttempt
    rw [hn, hs]
    rfl
  have hR : removeAttempt identifier cfg re
      = ((removeAttemptTimed identifier name cfg re).1,
         Effect.setAlarm 60 :: (removeAttemptTimed identifier name cfg re).2) := by
    unfold removeAttempt
    rw [hn, hs]
    rfl
  refine ⟨?_, ?_, ?_, ?_, ?_, ?_, ?_⟩
  · unfold shareLibrariesOnServer
    rw [hS]
    exact catchBoundary_trace_cons _ _ _ _ _
  · unfold removeUser
    rw [hR]
    exact catchBoundary_trace_cons _ _ _ _ _
  · unfold checkUserInfo checkAttempt
    exact catchBoundary_trace_cons _ _ _ _ _
  · intro n hmem
    unfold checkUserInfo checkAttempt at hmem
    rcases hx : (checkAttemptBody userEmail cfg ce).1 with e | r
    · rw [hx, catchBoundary_error] at hmem
      simp only [List.cons_append, List.mem_cons, List.mem_append,
        List.mem_singleton] at hmem
      rcases hmem with h15 | hbody | hclear | hnil
      · exact (Effect.setAlarm.injEq .. ▸ h15 : n = 15)
      · exact absurd hbody (checkAttemptBody_no_alarm userEmail cfg ce n)
      · simp at hclear
      · simp at hnil
    · rw [hx, catchBoundary_ok] at hmem
      simp only [List.mem_cons] at hmem
      rcases hmem with h15 | hbody
      · exact (Effect.setAlarm.injEq .. ▸ h15 : n = 15)
      · exact absurd hbody (checkAttemptBody_no_alarm userEmail cfg ce n)
  · intro h2
    unfold mainRun
    rw [if_neg (Nat.not_lt.mpr h2)]
    exact ⟨(mainDispatch argv me).2 ++ [Effect.clearAlarm], rfl⟩
  · intro t hT
    unfold shareLibrariesOnServer
    rw [hT, catchBoundary_error]
    rfl
  · intro t hT
    unfold checkUserInfo
    rw [hT, catchBoundary_error]
    rfl

/-- Witness for C8: concrete timeout during the verify-only check — the
15-unit alarm, its exclusivity, and the timeout failure outcome. -/
theorem c8_witness :
    (∃ t, (checkUserInfo "u@x.com" cexCfg timeoutCheckEnv).2
        = Effect.setAlarm 15 :: t)
      ∧ (checkUserInfo "u@x.com" cexCfg timeoutCheckEnv).1
          = Except.ok { success := false
                        message := some "Verification timed out"
                        server := some (cfgGetName cexCfg) }
      ∧ (∃ t, (mainRun ["plex_service_v2.py", "check_user_info"] baseMainEnv).2.2
          = Effect.setAlarm 120 :: t) := by
  have h := c8_timeout_budgets "u@x.com" "bob" cexCfg [] baseShareEnv c4Env
    timeoutCheckEnv ["plex_service_v2.py", "check_user_info"] baseMainEnv
    "Srv" "S1" rfl rfl
  exact ⟨h.2.2.1, h.2.2.2.2.2.2 [Effect.setAlarm 15] rfl, h.2.2.2.2.1 (by decide)⟩

/-! ### C9 — exit status and error documents of `main` -/

/-- Claim C9 as stated is false on the code: an unknown command produces the
JSON error document but `main` never calls `sys.exit`, so the process still
terminates with status 0, not a non-zero status. -/
theorem c9_counterexample :
    (mainRun ["plex_service_v2.py", "bogus_command"] baseMainEnv).1
        = OutDoc.usageError
      ∧ OutDoc.isErrorDoc
          (mainRun ["plex_service_v2.py", "bogus_command"] baseMainEnv).1 = true
      ∧ (mainRun ["plex_service_v2.py", "bogus_command"] baseMainEnv).2.1 = 0 := by
  refine ⟨?_, ?_, ?_⟩
  · rfl
  · rfl
  · rfl

/-- Claim C9 (amended): malformed arguments and unknown commands emit a JSON
error document, but the process exit status is 0 on every path — no failure
is ever signalled through the exit code; failures are represented only
inside the printed JSON document. -/
theorem c9_exit_zero (argv : List String) (env : MainEnv) :
    (mainRun argv env).2.1 = 0
    ∧ (argv.length < 2 → (mainRun argv env).1 = OutDoc.errorNoCommand)
    ∧ (2 ≤ argv.length → argv.getD 1 "" ∉ mainCommands →
        (mainRun argv env).1 = OutDoc.usageError
          ∧ OutDoc.isErrorDoc (mainRun argv env).1 = true) := by
  refine ⟨?_, ?_, ?_⟩
  · unfold mainRun
    by_cases h : argv.length < 2
    · rw [if_pos h]
    · rw [if_neg h]
  · intro h
    unfold mainRun
    rw [if_pos h]
  · intro h2 hcmd
    simp only [mainCommands, List.mem_cons, List.not_mem_nil, or_false,
      not_or] at hcmd
    obtain ⟨n1, n2, n3, n4, n5⟩ := hcmd
    have hd : mainDispatch argv env = (OutDoc.usageError, []) := by
      simp only [mainDispatch]
      rw [if_neg (fun hc => n1 hc.1), if_neg (fun hc => n2 hc.1),
          if_neg (fun hc => n3 hc.1), if_neg (fun hc => n4 hc.1),
          if_neg (fun hc => n5 hc.1)]
    have h3 : ¬ argv.length < 2 := Nat.not_lt.mpr h2
    unfold mainRun
    rw [if_neg h3]
    simp only [hd]
    refine ⟨?_, ?_⟩ <;> first | rfl | trivial

/-- Witness for C9 (amended): a concrete unknown command exits 0 with the
usage error document. -/
theorem c9_witness :
    (mainRun ["app", "frobnicate"] baseMainEnv).2.1 = 0
      ∧ (mainRun ["app", "frobnicate"] baseMainEnv).1 = OutDoc.usageError := by
  have h := c9_exit_zero ["app", "frobnicate"] baseMainEnv
  exact ⟨h.1, (h.2.2 (by decide) (by decide)).1⟩

end StreamPanel
